import Mathlib

/-!
Verification model of the PlayStation CD-ROM drive controller
(`src/core/cdrom.cpp`). The controller is embedded shallowly: every
member function of the `CDROM` class that mutates state becomes a pure
Lean function on `CDROM.State`, external collaborators (DMA driver,
interrupt controller, SPU audio mixer, disc image) are modelled by
instrumentation fields and an abstract `Media` record, and the guest-CPU
facing entry points form a step relation whose reflexive-transitive
closure defines the reachable states.

Declarations that embed code living outside the provided source tree
(the class header with bit layouts and small inline helpers, the
`CDImage` position conversions and the CD-XA decode entry point) carry a
doc comment starting with `Modelled from the spec:` and follow the
specification's wording.
-/

namespace CDROM

/-- Saturate a 32-bit intermediate to the int16 range, as
`std::clamp<s32>(x, -0x8000, 0x7FFF)` does in the source. -/
def clamp16 (x : Int) : Int := max (-32768) (min 32767 x)

/-- Wrap an integer into int16 range, as an implicit `static_cast<s16>`
of an int-typed expression does in the source. -/
def toS16 (x : Int) : Int := (x + 32768).emod 65536 - 32768

/-- Reinterpret an unsigned 32-bit value as a signed `TickCount` (s32),
as `static_cast<TickCount>` does in the source. -/
def wrap32s (n : Nat) : Int :=
  let r := n % 4294967296
  if r < 2147483648 then (r : Int) else (r : Int) - 4294967296

/-- Modelled from the spec: `BCDToDecimal` (declared in the class
header, which is not part of the provided sources). Each nibble of the
byte is a decimal digit. -/
def bcdToDecimal (v : Nat) : Nat := (v / 16) * 10 + v % 16

/-- Modelled from the spec: `DecimalToBCD` (declared in the class
header, which is not part of the provided sources). -/
def decimalToBCD (v : Nat) : Nat := (v / 10) * 16 + v % 10

/-- Modelled from the spec: `Truncate8`, truncation of a wider unsigned
value to a byte. -/
def truncate8 (v : Nat) : Nat := v % 256

/-- Minute/second/frame position triple (`CDImage::Position`). -/
structure Position where
  minute : Nat
  second : Nat
  frame : Nat
deriving DecidableEq, Repr

/-- Modelled from the spec: `CDImage::Position::ToLBA` (the `CDImage`
header is not part of the provided sources). A second is 75 frames and
sector 0 sits at MSF 00:02:00, so the LBA subtracts the 150-frame
lead-in. -/
def Position.toLBA (p : Position) : Nat :=
  ((p.minute * 60 + p.second) * 75 + p.frame) - 150

/-- Modelled from the spec: `CDImage::Position::FromLBA`, the inverse of
`Position.toLBA` under the 00:02:00 convention. -/
def Position.fromLBA (lba : Nat) : Position :=
  { minute := (lba + 150) / 4500
    second := ((lba + 150) % 4500) / 75
    frame := (lba + 150) % 75 }

/-- Command sequencing state of the controller. -/
inductive CommandState where
  | Idle
  | WaitForExecute
  | WaitForIRQClear
deriving DecidableEq, Repr

/-- Command opcodes handled by `ExecuteCommand`. `unknown` captures any
byte the dispatcher does not recognise (it panics on execution). -/
inductive Command where
  | Sync
  | Getstat
  | Setloc
  | Play
  | ReadN
  | Pause
  | Init
  | Mute
  | Demute
  | Setfilter
  | Setmode
  | GetlocL
  | GetlocP
  | GetTN
  | GetTD
  | SeekL
  | SeekP
  | Test
  | GetID
  | ReadS
  | unknown (v : Nat)
deriving DecidableEq, Repr

/-- Modelled from the spec: the opcode encoding of the `Command` enum
(class header not in the provided sources). The spec pins Setloc = 0x02,
ReadN = 0x06, SeekL = 0x15 and GetID = 0x1A; the remaining values follow
the standard PSX opcode table the enum mirrors. -/
def decodeCommand (v : Nat) : Command :=
  if v = 0x00 then .Sync
  else if v = 0x01 then .Getstat
  else if v = 0x02 then .Setloc
  else if v = 0x03 then .Play
  else if v = 0x06 then .ReadN
  else if v = 0x09 then .Pause
  else if v = 0x0A then .Init
  else if v = 0x0B then .Mute
  else if v = 0x0C then .Demute
  else if v = 0x0D then .Setfilter
  else if v = 0x0E then .Setmode
  else if v = 0x10 then .GetlocL
  else if v = 0x11 then .GetlocP
  else if v = 0x13 then .GetTN
  else if v = 0x14 then .GetTD
  else if v = 0x15 then .SeekL
  else if v = 0x16 then .SeekP
  else if v = 0x19 then .Test
  else if v = 0x1A then .GetID
  else if v = 0x1B then .ReadS
  else .unknown v

/-- The status byte (offset 0) as individual flags plus the latched
2-bit index. -/
structure StatusRegister where
  index : Nat
  ADPBUSY : Bool
  PRMEMPTY : Bool
  PRMWRDY : Bool
  RSLRRDY : Bool
  DRQSTS : Bool
  BUSYSTS : Bool
deriving DecidableEq, Repr

/-- Modelled from the spec: byte layout of the status register (bitfield
union in the class header, which is not in the provided sources). The
low two bits echo the index; the flags follow in the spec's order. -/
def statusBits (st : StatusRegister) : Nat :=
  st.index % 4
  + (if st.ADPBUSY then 4 else 0)
  + (if st.PRMEMPTY then 8 else 0)
  + (if st.PRMWRDY then 16 else 0)
  + (if st.RSLRRDY then 32 else 0)
  + (if st.DRQSTS then 64 else 0)
  + (if st.BUSYSTS then 128 else 0)

/-- The secondary status byte (drive state flags). -/
structure SecondaryStatus where
  error : Bool
  motor_on : Bool
  seek_error : Bool
  id_error : Bool
  shell_open : Bool
  reading : Bool
  seeking : Bool
  playing_cdda : Bool
deriving DecidableEq, Repr

/-- Modelled from the spec: byte layout of the secondary status
(bitfield union in the class header). Bits ascend in the spec's listing
order: error, motor_on, seek_error, id_error, shell_open, reading,
seeking, playing_cdda. -/
def secondaryBits (st : SecondaryStatus) : Nat :=
  (if st.error then 1 else 0)
  + (if st.motor_on then 2 else 0)
  + (if st.seek_error then 4 else 0)
  + (if st.id_error then 8 else 0)
  + (if st.shell_open then 16 else 0)
  + (if st.reading then 32 else 0)
  + (if st.seeking then 64 else 0)
  + (if st.playing_cdda then 128 else 0)

/-- The all-cleared secondary status, `m_secondary_status.bits = 0`. -/
def SecondaryStatus.zero : SecondaryStatus :=
  ⟨false, false, false, false, false, false, false, false⟩

/-- `m_secondary_status.IsActive()`: one of the three motion sub-states
is set. -/
def SecondaryStatus.IsActive (st : SecondaryStatus) : Bool :=
  st.reading || st.seeking || st.playing_cdda

/-- `m_secondary_status.IsReadingOrPlaying()`. -/
def SecondaryStatus.IsReadingOrPlaying (st : SecondaryStatus) : Bool :=
  st.reading || st.playing_cdda

/-- Modelled from the spec: mode-byte bit accessors (bitfield union in
the class header). Bits ascend in the spec's listing order: cdda,
auto_pause, report_audio, xa_filter, ignore_bit, read_raw_sector,
xa_enable, double_speed. -/
def modeCDDA (b : Nat) : Bool := b.testBit 0

/-- Mode bit 1. -/
def modeAutoPause (b : Nat) : Bool := b.testBit 1

/-- Mode bit 2. -/
def modeReportAudio (b : Nat) : Bool := b.testBit 2

/-- Mode bit 3. -/
def modeXAFilter (b : Nat) : Bool := b.testBit 3

/-- Mode bit 4. -/
def modeIgnoreBit (b : Nat) : Bool := b.testBit 4

/-- Mode bit 5. -/
def modeReadRawSector (b : Nat) : Bool := b.testBit 5

/-- Mode bit 6. -/
def modeXAEnable (b : Nat) : Bool := b.testBit 6

/-- Mode bit 7. -/
def modeDoubleSpeed (b : Nat) : Bool := b.testBit 7

/-- Last sector header (bytes 12..16 of a raw sector). -/
structure SectorHeader where
  minute : Nat
  second : Nat
  frame : Nat
  sector_mode : Nat
deriving DecidableEq, Repr

/-- Last sector subheader (bytes 16..24 of a raw sector: the XA
subheader and its duplicate copy). -/
structure SectorSubheader where
  file_number : Nat
  channel_number : Nat
  submode : Nat
  codinginfo : Nat
  copy_file_number : Nat
  copy_channel_number : Nat
  copy_submode : Nat
  copy_codinginfo : Nat
deriving DecidableEq, Repr

/-- Modelled from the spec: XA submode bits, descending from bit 7 in
the spec's listing order eof, realtime, form, trigger, data, audio,
video, end-of-record. -/
def submodeEOF (b : Nat) : Bool := b.testBit 7

/-- Submode bit 6. -/
def submodeRealtime (b : Nat) : Bool := b.testBit 6

/-- Submode bit 2. -/
def submodeAudio (b : Nat) : Bool := b.testBit 2

/-- Modelled from the spec: XA coding-info accessors (class header not
in the provided sources). Bits 0-1 select mono/stereo, bits 2-3 the
sample rate (1 = half rate, 18900 Hz), bits 4-5 the bits per sample
(1 = 8-bit). -/
def codingIsStereo (b : Nat) : Bool := b % 4 = 1

/-- Coding-info sample-rate field. -/
def codingIsHalfSampleRate (b : Nat) : Bool := (b / 4) % 4 = 1

/-- Coding-info bits-per-sample field. -/
def codingIs8Bit (b : Nat) : Bool := (b / 16) % 4 = 1

/-- Modelled from the spec: total decoded samples per XA sector, 4032 at
4-bit and 2240 at 8-bit (spec section 4.6). -/
def codingSamplesPerSector (b : Nat) : Nat :=
  if codingIs8Bit b then 2240 else 4032

/-- The 2x2 CD audio volume matrix; entry `mRC` scales input channel `C`
into output channel `R`. -/
structure VolumeMatrix where
  m00 : Nat
  m01 : Nat
  m10 : Nat
  m11 : Nat
deriving DecidableEq, Repr

/-- Abstract disc image (`CDImage`): current position, sector contents,
seek admissibility and table-of-contents data. -/
structure Media where
  pos : Nat
  readSector : Nat → List Nat
  seekOk : Nat → Bool
  lbaCount : Nat
  trackCount : Nat
  trackNumber : Nat
  trackStart : Nat → Position

/-- One call into the SPU mixer interface, recorded in order. -/
inductive SpuEvent where
  | ensure (n : Nat)
  | sample (l r : Int)
deriving DecidableEq, Repr

/-- The complete instantaneous machine state of the controller,
augmented with instrumentation for the external interfaces: the DMA
request line, the count of interrupt-controller requests, the recorded
SPU mixer calls and flags that latch assertion failures. -/
structure State where
  command : Command
  command_state : CommandState
  command_stage : Nat
  command_remaining_ticks : Int
  read_or_seek_remaining_ticks : Int
  status : StatusRegister
  secondary_status : SecondaryStatus
  mode : Nat
  interrupt_enable_register : Nat
  interrupt_flag_register : Nat
  pending_async_interrupt : Nat
  setloc_position : Position
  seek_position : Position
  setloc_pending : Bool
  read_after_seek : Bool
  play_after_seek : Bool
  muted : Bool
  adpcm_muted : Bool
  filter_file_number : Nat
  filter_channel_number : Nat
  last_sector_header : SectorHeader
  last_sector_subheader : SectorSubheader
  cd_audio_volume_matrix : VolumeMatrix
  next_cd_audio_volume_matrix : VolumeMatrix
  xa_last_samples : List Int
  xa_ring0 : Nat → Int
  xa_ring1 : Nat → Int
  xa_resample_p : Nat
  xa_resample_sixstep : Nat
  param_fifo : List Nat
  response_fifo : List Nat
  async_response_fifo : List Nat
  data_fifo : List Nat
  sector_buffer : List Nat
  media : Option Media
  dma_request : Bool
  irq_count : Nat
  spu_events : List SpuEvent
  bad_async_delivery : Bool
  double_async : Bool
  panicked : Bool

/-- `CDROM::UpdateStatusRegister`: recompute the status flags from the
FIFO levels and command state, and drive the DMA request line from
`DRQSTS`. -/
def updateStatusRegister (s : State) : State :=
  { s with
    status :=
      { index := s.status.index
        ADPBUSY := false
        PRMEMPTY := s.param_fifo.isEmpty
        PRMWRDY := decide (s.param_fifo.length < 16)
        RSLRRDY := !s.response_fifo.isEmpty
        DRQSTS := !s.data_fifo.isEmpty
        BUSYSTS := s.command_state == CommandState.WaitForExecute }
    dma_request := !s.data_fifo.isEmpty }

/-- Modelled from the spec: `HasPendingInterrupt` (class header not in
the provided sources): a synchronous flag is outstanding exactly when
the interrupt flag register is non-zero. -/
def hasPendingInterrupt (s : State) : Bool := s.interrupt_flag_register != 0

/-- `CDROM::SetInterrupt`: latch a synchronous interrupt code and raise
the IRQ line. -/
def setInterrupt (code : Nat) (s : State) : State :=
  let s := { s with interrupt_flag_register := code }
  if hasPendingInterrupt s then { s with irq_count := s.irq_count + 1 } else s

/-- `CDROM::DeliverAsyncInterrupt`: splice the async response FIFO into
the (cleared) response FIFO, latch the pending code into the flag
register and raise the IRQ. `bad_async_delivery` records a delivery
attempted while a synchronous flag was still outstanding (the source
asserts against this). -/
def deliverAsyncInterrupt (s : State) : State :=
  { s with
    response_fifo := s.async_response_fifo
    async_response_fifo := []
    interrupt_flag_register := s.pending_async_interrupt
    pending_async_interrupt := 0
    irq_count := s.irq_count + 1
    bad_async_delivery := s.bad_async_delivery || hasPendingInterrupt s }

/-- `CDROM::SetAsyncInterrupt`: latch the code and deliver immediately
unless a synchronous flag is outstanding. `double_async` records the
source's assertion that no async code was already pending. -/
def setAsyncInterrupt (code : Nat) (s : State) : State :=
  let s := { s with
    double_async := s.double_async || (s.pending_async_interrupt != 0)
    pending_async_interrupt := code }
  if hasPendingInterrupt s then s else deliverAsyncInterrupt s

/-- `CDROM::CancelAsyncInterrupt`. -/
def cancelAsyncInterrupt (s : State) : State :=
  { s with pending_async_interrupt := 0, async_response_fifo := [] }

/-- `CDROM::SendACKAndStat`. -/
def sendACKAndStat (s : State) : State :=
  setInterrupt 3 { s with
    response_fifo := s.response_fifo ++ [secondaryBits s.secondary_status] }

/-- `CDROM::SendErrorResponse`. -/
def sendErrorResponse (reason : Nat) (s : State) : State :=
  setInterrupt 5 { s with
    response_fifo :=
      s.response_fifo ++ [secondaryBits s.secondary_status ||| 1, reason] }

/-- `CDROM::SendAsyncErrorResponse`. -/
def sendAsyncErrorResponse (reason : Nat) (s : State) : State :=
  setAsyncInterrupt 5 { s with
    async_response_fifo :=
      s.async_response_fifo ++ [secondaryBits s.secondary_status ||| 1, reason] }

/-- Modelled from the spec: the PSX master clock, 44100 Hz times 0x300
(the constant lives in a header outside the provided sources; the spec
uses it only through `MASTER_CLOCK/75` and `MASTER_CLOCK/150`). -/
def MASTER_CLOCK : Nat := 44100 * 768

/-- `CDROM::GetAckDelayForCommand`. -/
def getAckDelayForCommand (c : Command) : Int :=
  if c = Command.Init then 60000 else 4000

/-- `CDROM::GetTicksForRead`. -/
def getTicksForRead (s : State) : Int :=
  if modeDoubleSpeed s.mode then (MASTER_CLOCK / 150 : Nat) else (MASTER_CLOCK / 75 : Nat)

/-- `CDROM::GetTicksForSeek`: distance-proportional seek latency from
the image's current LBA to the latched setloc target. -/
def getTicksForSeek (m : Media) (s : State) : Int :=
  let current_lba := m.pos
  let new_lba := s.setloc_position.toLBA
  let lba_diff := if new_lba > current_lba then new_lba - current_lba else current_lba - new_lba
  wrap32s (20000 + lba_diff * 100)

/-- `CDROM::EndCommand`: clear the parameter FIFO and return the
dispatcher to idle. -/
def endCommand (s : State) : State :=
  updateStatusRegister
    { s with
      param_fifo := []
      command_state := CommandState.Idle
      command := Command.Sync
      command_stage := 0
      command_remaining_ticks := 0 }

/-- `CDROM::NextCommandStage`: advance the stage, waiting for the host
to clear the interrupt flag when `wait_for_irq` is set, otherwise
rescheduling execution directly. -/
def nextCommandStage (wait_for_irq : Bool) (time : Int) (s : State) : State :=
  let s := updateStatusRegister
    { s with
      command_state := CommandState.WaitForIRQClear
      command_remaining_ticks := time
      command_stage := s.command_stage + 1 }
  if wait_for_irq then s
  else updateStatusRegister { s with command_state := CommandState.WaitForExecute }

/-- `CDROM::StopReading`: clear the three motion sub-states and the
motion countdown. -/
def stopReading (s : State) : State :=
  if s.secondary_status.IsActive then
    { s with
      secondary_status :=
        { s.secondary_status with reading := false, playing_cdda := false, seeking := false }
      read_or_seek_remaining_ticks := 0 }
  else s

/-- `CDROM::BeginSeeking`: latch the seek target from the setloc
position, mark the drive seeking and schedule the distance-proportional
seek time. Dereferences the media (the source assumes it present). -/
def beginSeeking (s : State) : State :=
  match s.media with
  | none => { s with panicked := true }
  | some m =>
    let s := { s with
      seek_position := s.setloc_position
      setloc_pending := false
      panicked := s.panicked || s.secondary_status.IsReadingOrPlaying }
    { s with
      secondary_status := { s.secondary_status with motor_on := true, seeking := true }
      read_or_seek_remaining_ticks := getTicksForSeek m s }

/-- Tail of `CDROM::BeginReading` once any pending setloc has been
resolved: enter the Reading or PlayingCDDA state and schedule the first
sector. -/
def beginReadingBody (cdda : Bool) (s : State) : State :=
  { s with
    secondary_status :=
      { s.secondary_status with
        motor_on := true, seeking := false, reading := !cdda, playing_cdda := cdda }
    read_or_seek_remaining_ticks := getTicksForRead s }

/-- `CDROM::BeginReading`: divert through a seek when a setloc is
pending for a different position, otherwise start reading or playing
immediately. -/
def beginReading (cdda : Bool) (s : State) : State :=
  if s.setloc_pending then
    match s.media with
    | none => { s with panicked := true }
    | some m =>
      if Position.fromLBA m.pos ≠ s.setloc_position then
        let s := beginSeeking s
        { s with read_after_seek := !cdda, play_after_seek := cdda }
      else beginReadingBody cdda { s with setloc_pending := false }
  else beginReadingBody cdda s

/-- Pad or cut a sector image to the raw sector size, reflecting
`m_sector_buffer.resize(RAW_SECTOR_SIZE)` followed by a full read. -/
def padSector (l : List Nat) : List Nat :=
  (l ++ List.replicate 2352 0).take 2352

/-- Byte lookup in a buffer (out-of-range reads yield 0). -/
def byteAt (l : List Nat) (i : Nat) : Nat := l.getD i 0

/-- The fixed 7x29 zig-zag interpolation coefficient table
(`s_zigzag_table`), transcribed bit-for-bit from the source. -/
def zigzagTable : List (List Int) :=
  [[0, 0x0, 0x0, 0x0, 0x0, -0x0002, 0x000A, -0x0022, 0x0041, -0x0054,
    0x0034, 0x0009, -0x010A, 0x0400, -0x0A78, 0x234C, 0x6794, -0x1780, 0x0BCD, -0x0623,
    0x0350, -0x016D, 0x006B, 0x000A, -0x0010, 0x0011, -0x0008, 0x0003, -0x0001],
   [0, 0x0, 0x0, -0x0002, 0x0, 0x0003, -0x0013, 0x003C, -0x004B, 0x00A2,
    -0x00E3, 0x0132, -0x0043, -0x0267, 0x0C9D, 0x74BB, -0x11B4, 0x09B8, -0x05BF, 0x0372,
    -0x01A8, 0x00A6, -0x001B, 0x0005, 0x0006, -0x0008, 0x0003, -0x0001, 0x0],
   [0, 0x0, -0x0001, 0x0003, -0x0002, -0x0005, 0x001F, -0x004A, 0x00B3, -0x0192,
    0x02B1, -0x039E, 0x04F8, -0x05A6, 0x7939, -0x05A6, 0x04F8, -0x039E, 0x02B1, -0x0192,
    0x00B3, -0x004A, 0x001F, -0x0005, -0x0002, 0x0003, -0x0001, 0x0, 0x0],
   [0, -0x0001, 0x0003, -0x0008, 0x0006, 0x0005, -0x001B, 0x00A6, -0x01A8, 0x0372,
    -0x05BF, 0x09B8, -0x11B4, 0x74BB, 0x0C9D, -0x0267, -0x0043, 0x0132, -0x00E3, 0x00A2,
    -0x004B, 0x003C, -0x0013, 0x0003, 0x0, -0x0002, 0x0, 0x0, 0x0],
   [-0x0001, 0x0003, -0x0008, 0x0011, -0x0010, 0x000A, 0x006B, -0x016D, 0x0350, -0x0623,
    0x0BCD, -0x1780, 0x6794, 0x234C, -0x0A78, 0x0400, -0x010A, 0x0009, 0x0034, -0x0054,
    0x0041, -0x0022, 0x000A, -0x0001, 0x0, 0x0001, 0x0, 0x0, 0x0],
   [0x0002, -0x0008, 0x0010, -0x0023, 0x002B, 0x001A, -0x00EB, 0x027B, -0x0548, 0x0AFA,
    -0x16FA, 0x53E0, 0x3C07, -0x1249, 0x080E, -0x0347, 0x015B, -0x0044, -0x0017, 0x0046,
    -0x0023, 0x0011, -0x0005, 0x0, 0x0, 0x0, 0x0, 0x0, 0x0],
   [-0x0005, 0x0011, -0x0023, 0x0046, -0x0017, -0x0044, 0x015B, -0x0347, 0x080E, -0x1249,
    0x3C07, 0x53E0, -0x16FA, 0x0AFA, -0x0548, 0x027B, -0x00EB, 0x001A, 0x002B, -0x0023,
    0x0010, -0x0008, 0x0002, 0x0, 0x0, 0x0, 0x0, 0x0, 0x0]]

/-- `ZigZagInterpolate`: a 29-tap filter over the 32-entry ring buffer,
each term divided (truncating, as C++ s32 division) by 0x8000, the sum
saturated to int16. The ring index `(p - i) & 0x1F` is taken modulo 32. -/
def zigZagInterpolate (ringbuf : Nat → Int) (table : List Int) (p : Nat) : Int :=
  clamp16 (((List.range 29).map
    (fun i => Int.tdiv (ringbuf ((p + 32 * 8 - i) % 32) * table.getD i 0) 0x8000)).sum)

/-- `ApplyVolume`: scale an int16 sample by a byte volume, arithmetic
shift right by 7 (floor division by 128), saturated to int16. -/
def applyVolume (sample : Int) (volume : Nat) : Int :=
  clamp16 (Int.fdiv (sample * (volume : Int)) 128)

/-- The stereo output pair produced inside `ResampleXAADPCM` for one
interpolated input pair: note the left output mixes the right channel
through matrix entry `[1][0]` and the right output mixes the left
channel through `[1][0]` as well, exactly as the source does. -/
def xaOutPair (M : VolumeMatrix) (left_interp right_interp : Int) : Int × Int :=
  (toS16 (applyVolume left_interp M.m00 + applyVolume right_interp M.m10),
   toS16 (applyVolume left_interp M.m10 + applyVolume right_interp M.m11))

/-- The stereo output pair produced inside `ProcessCDDASector` for one
sample pair. -/
def cddaOutPair (M : VolumeMatrix) (samp_left samp_right : Int) : Int × Int :=
  (toS16 (applyVolume samp_left M.m00 + applyVolume samp_right M.m01),
   toS16 (applyVolume samp_left M.m10 + applyVolume samp_right M.m11))

/-- Running state of the polyphase resampler: the two ring buffers, the
write pointer, the six-step phase counter and the samples pushed so far. -/
structure RState where
  ring0 : Nat → Int
  ring1 : Nat → Int
  p : Nat
  sixstep : Nat
  out : List (Int × Int)

/-- Emit the seven phase outputs of the zig-zag filter at the current
ring position. -/
def emitSeven (stereo : Bool) (M : VolumeMatrix) (rs : RState) : RState :=
  { rs with out := rs.out ++ (List.range 7).map (fun j =>
      let li := zigZagInterpolate rs.ring0 (zigzagTable.getD j []) rs.p
      let ri := if stereo then zigZagInterpolate rs.ring1 (zigzagTable.getD j []) rs.p else li
      xaOutPair M li ri) }

/-- One ring write of `ResampleXAADPCM`'s inner loop: store the sample
pair, advance the pointer, decrement the u8 `sixstep` counter and emit
seven outputs when it reaches zero (resetting it to 6). -/
def stepOne (stereo : Bool) (M : VolumeMatrix) (l r : Int) (rs : RState) : RState :=
  let rs := { rs with
    ring0 := fun i => if i = rs.p then l else rs.ring0 i
    ring1 := if stereo then (fun i => if i = rs.p then r else rs.ring1 i) else rs.ring1
    p := (rs.p + 1) % 32
    sixstep := (rs.sixstep + 255) % 256 }
  if rs.sixstep = 0 then emitSeven stereo M { rs with sixstep := 6 } else rs

/-- The `sample_dup` loop body: write the input sample once, or twice
when the source is half rate. -/
def stepDup (stereo half : Bool) (M : VolumeMatrix) (l r : Int) (rs : RState) : RState :=
  if half then stepOne stereo M l r (stepOne stereo M l r rs)
  else stepOne stereo M l r rs

/-- The main loop of `ResampleXAADPCM`, iterated `num_samples_in` times,
consuming one input sample (mono) or one pair (stereo) per iteration. -/
def resampleGo (stereo half : Bool) (M : VolumeMatrix) :
    Nat → List Int → RState → RState
  | 0, _, rs => rs
  | Nat.succ n, input, rs =>
    let l := input.headD 0
    let r := if stereo then input.tail.headD 0 else l
    let rest := if stereo then input.tail.tail else input.tail
    resampleGo stereo half M n rest (stepDup stereo half M l r rs)

/-- `ResampleXAADPCM` acting on the controller state: run the resampler
loop from the stored ring buffers and counters, write them back and
record the pushed mixer samples. -/
def resampleXAADPCM (stereo half : Bool) (num : Nat) (input : List Int) (s : State) : State :=
  let rs := resampleGo stereo half s.cd_audio_volume_matrix num input
    { ring0 := s.xa_ring0, ring1 := s.xa_ring1
      p := s.xa_resample_p, sixstep := s.xa_resample_sixstep, out := [] }
  { s with
    xa_ring0 := rs.ring0
    xa_ring1 := rs.ring1
    xa_resample_p := rs.p
    xa_resample_sixstep := rs.sixstep
    spu_events := s.spu_events ++ rs.out.map (fun pr => SpuEvent.sample pr.1 pr.2) }

/-- Modelled from the spec: `CDXA::DecodeADPCMSector` (not in the
provided sources). Only the decoded sample count, fixed by the coding
info (spec section 4.6), is observable through the claims; decoded
sample values are modelled as zero and the decoder filter history is
kept abstract. -/
def decodeADPCMSector (codinginfo : Nat) : List Int :=
  List.replicate (codingSamplesPerSector codinginfo) 0

/-- `CDROM::ProcessXAADPCMSector`: decode the sector, short-circuit when
muted, otherwise reserve mixer space for the input sample count and run
the resampler in the coding-selected configuration. -/
def processXAADPCMSector (s : State) : State :=
  let coding := s.last_sector_subheader.codinginfo
  let samples := decodeADPCMSector coding
  if s.muted || s.adpcm_muted then s
  else if codingIsStereo coding then
    let num := codingSamplesPerSector coding / 2
    let s := { s with spu_events := s.spu_events ++ [SpuEvent.ensure num] }
    resampleXAADPCM true (codingIsHalfSampleRate coding) num samples s
  else
    let num := codingSamplesPerSector coding
    let s := { s with spu_events := s.spu_events ++ [SpuEvent.ensure num] }
    resampleXAADPCM false (codingIsHalfSampleRate coding) num samples s

/-- Interpret two bytes as a little-endian signed 16-bit sample. -/
def s16FromLE (b0 b1 : Nat) : Int := toS16 ((b0 : Int) + 256 * (b1 : Int))

/-- The per-pair loop of `ProcessCDDASector`: volume-map `n` stereo
pairs taken little-endian from the sector bytes. -/
def cddaPairs (M : VolumeMatrix) : Nat → List Nat → List (Int × Int)
  | 0, _ => []
  | Nat.succ n, bytes =>
    cddaOutPair M (s16FromLE (byteAt bytes 0) (byteAt bytes 1))
      (s16FromLE (byteAt bytes 2) (byteAt bytes 3)) :: cddaPairs M n (bytes.drop 4)

/-- `CDROM::ProcessCDDASector`: when not muted, reserve 588 mixer slots
and push the 588 volume-mapped pairs of the raw sector; always clear the
sector buffer. -/
def processCDDASector (s : State) : State :=
  let s :=
    if !s.muted then
      let s := { s with spu_events := s.spu_events ++ [SpuEvent.ensure 588] }
      let pairs := cddaPairs s.cd_audio_volume_matrix 588 s.sector_buffer
      { s with spu_events := s.spu_events ++ pairs.map (fun pr => SpuEvent.sample pr.1 pr.2) }
    else s
  { s with sector_buffer := [] }

/-- Tail of `CDROM::ProcessDataSector` for a sector that is passed to
the CPU: push an async INT1 with the secondary status. -/
def passSectorToCPU (s : State) : State :=
  updateStatusRegister (setAsyncInterrupt 1
    { s with async_response_fifo :=
        s.async_response_fifo ++ [secondaryBits s.secondary_status] })

/-- `CDROM::ProcessDataSector`: capture header and subheader, route
realtime XA audio sectors (subject to the file/channel filter) to the
ADPCM pipeline without CPU delivery, and raise INT1 for everything
else. -/
def processDataSector (s : State) : State :=
  let b := s.sector_buffer
  let hdr : SectorHeader :=
    { minute := byteAt b 12, second := byteAt b 13
      frame := byteAt b 14, sector_mode := byteAt b 15 }
  let sub : SectorSubheader :=
    { file_number := byteAt b 16, channel_number := byteAt b 17
      submode := byteAt b 18, codinginfo := byteAt b 19
      copy_file_number := byteAt b 20, copy_channel_number := byteAt b 21
      copy_submode := byteAt b 22, copy_codinginfo := byteAt b 23 }
  let s := { s with last_sector_header := hdr, last_sector_subheader := sub }
  if modeXAEnable s.mode && (hdr.sector_mode == 2) then
    if submodeRealtime sub.submode && submodeAudio sub.submode then
      let s :=
        if modeXAFilter s.mode &&
            (sub.file_number != s.filter_file_number ||
             sub.channel_number != s.filter_channel_number) then s
        else processXAADPCMSector s
      { s with sector_buffer := [] }
    else passSectorToCPU s
  else passSectorToCPU s

/-- `CDROM::DoSeekComplete`: on image seek success, optionally chain
into reading/playing, then raise an async INT2 with status; on failure
raise an async INT5(0x80). -/
def doSeekComplete (s : State) : State :=
  let s := { s with panicked := s.panicked || !s.secondary_status.seeking }
  let s := { s with secondary_status := { s.secondary_status with seeking := false } }
  let s :=
    match s.media with
    | some m =>
      if m.seekOk s.seek_position.toLBA then
        let s := { s with media := some { m with pos := s.seek_position.toLBA } }
        let s := if s.play_after_seek || s.read_after_seek then beginReading s.play_after_seek s else s
        updateStatusRegister (setAsyncInterrupt 2
          { s with async_response_fifo :=
              s.async_response_fifo ++ [secondaryBits s.secondary_status] })
      else sendAsyncErrorResponse 0x80 s
    | none => sendAsyncErrorResponse 0x80 s
  { s with setloc_pending := false, read_after_seek := false, play_after_seek := false }

/-- Body of `CDROM::DoSectorRead` after the pending-interrupt check:
read one raw sector from the image, process it as data or CDDA, and
schedule the next sector. -/
def doSectorReadCore (s : State) : State :=
  let s := { s with panicked := s.panicked || modeIgnoreBit s.mode }
  match s.media with
  | none => { s with panicked := true }
  | some m =>
    let s := { s with
      sector_buffer := padSector (m.readSector m.pos)
      media := some { m with pos := m.pos + 1 } }
    let s :=
      if s.secondary_status.reading then processDataSector s
      else if s.secondary_status.playing_cdda then processCDDASector s
      else { s with panicked := true }
    { s with read_or_seek_remaining_ticks := s.read_or_seek_remaining_ticks + getTicksForRead s }

/-- `CDROM::DoSectorRead`: an undelivered async interrupt from the
previous sector is cancelled (dropped) before the new sector is
processed. -/
def doSectorRead (s : State) : State :=
  doSectorReadCore (if s.pending_async_interrupt != 0 then cancelAsyncInterrupt s else s)

/-- `CDROM::ExecuteTestCommand`: sub 0x20 returns the BIOS date, 0x22
the region string bytes; other subcommands are ignored without ending
the command. -/
def executeTestCommand (sub : Nat) (s : State) : State :=
  if sub = 0x20 then
    endCommand (setInterrupt 3
      { s with response_fifo := s.response_fifo ++ [0x94, 0x09, 0x19, 0xC0] })
  else if sub = 0x22 then
    endCommand (setInterrupt 3
      { s with response_fifo := s.response_fifo ++ [0x66, 0x6F, 0x72, 0x20, 0x55, 0x2F, 0x43] })
  else s

/-- `CDROM::ExecuteCommand`: per-opcode behavior of the dispatcher. -/
def executeCommand (s : State) : State :=
  match s.command with
  | Command.Getstat => endCommand (sendACKAndStat s)
  | Command.Test =>
    let sub := s.param_fifo.headD 0
    executeTestCommand sub { s with param_fifo := s.param_fifo.tail }
  | Command.GetID =>
    if s.command_stage = 0 then
      match s.media with
      | none =>
        endCommand (setInterrupt 5 { s with response_fifo := s.response_fifo ++ [0x11, 0x80] })
      | some _ => nextCommandStage true 18000 (sendACKAndStat s)
    else
      endCommand (setInterrupt 2
        { s with response_fifo :=
            s.response_fifo ++ [0x02, 0x00, 0x20, 0x00, 0x53, 0x43, 0x45, 0x41] })
  | Command.Setfilter =>
    endCommand (sendACKAndStat
      { s with
        filter_file_number := s.param_fifo.getD 0 0
        filter_channel_number := s.param_fifo.getD 1 0 })
  | Command.Setmode => endCommand (sendACKAndStat { s with mode := s.param_fifo.getD 0 0 })
  | Command.Setloc =>
    endCommand (sendACKAndStat
      { s with
        setloc_position :=
          { minute := bcdToDecimal (s.param_fifo.getD 0 0)
            second := bcdToDecimal (s.param_fifo.getD 1 0)
            frame := bcdToDecimal (s.param_fifo.getD 2 0) }
        setloc_pending := true })
  | Command.SeekL =>
    match s.media with
    | none => endCommand (sendErrorResponse 0x80 s)
    | some _ => endCommand (sendACKAndStat (beginSeeking (stopReading s)))
  | Command.SeekP =>
    match s.media with
    | none => endCommand (sendErrorResponse 0x80 s)
    | some _ => endCommand (sendACKAndStat (beginSeeking (stopReading s)))
  | Command.ReadN =>
    match s.media with
    | none => endCommand (sendErrorResponse 0x80 s)
    | some _ => endCommand (sendACKAndStat (beginReading false (stopReading s)))
  | Command.ReadS =>
    match s.media with
    | none => endCommand (sendErrorResponse 0x80 s)
    | some _ => endCommand (sendACKAndStat (beginReading false (stopReading s)))
  | Command.Play =>
    match s.media with
    | none => endCommand (sendErrorResponse 0x80 s)
    | some m =>
      let track := if s.param_fifo.isEmpty then 0 else s.param_fifo.getD 0 0
      let s :=
        if track ≠ 0 then
          let track := if track > m.trackCount then truncate8 m.trackNumber else track
          { s with setloc_position := m.trackStart track, setloc_pending := true }
        else s
      endCommand (sendACKAndStat (beginReading true s))
  | Command.Pause =>
    if s.command_stage = 0 then
      let was_reading := s.secondary_status.IsReadingOrPlaying
      nextCommandStage true
        (if was_reading then (if modeDoubleSpeed s.mode then 2000000 else 1000000) else 7000)
        (stopReading (sendACKAndStat s))
    else
      endCommand (setInterrupt 2
        { s with response_fifo := s.response_fifo ++ [secondaryBits s.secondary_status] })
  | Command.Init =>
    if s.command_stage = 0 then
      nextCommandStage true 8000 (stopReading (sendACKAndStat s))
    else
      let s := { s with
        mode := 0
        secondary_status := { SecondaryStatus.zero with motor_on := true } }
      endCommand (setInterrupt 2
        { s with response_fifo := s.response_fifo ++ [secondaryBits s.secondary_status] })
  | Command.Mute => endCommand (sendACKAndStat { s with muted := true })
  | Command.Demute => endCommand (sendACKAndStat { s with muted := false })
  | Command.GetlocL =>
    endCommand (setInterrupt 3
      { s with response_fifo := s.response_fifo ++
          [s.last_sector_header.minute, s.last_sector_header.second,
           s.last_sector_header.frame, s.last_sector_header.sector_mode,
           s.last_sector_subheader.file_number, s.last_sector_subheader.channel_number,
           s.last_sector_subheader.submode, s.last_sector_subheader.codinginfo,
           s.last_sector_subheader.copy_file_number, s.last_sector_subheader.copy_channel_number,
           s.last_sector_subheader.copy_submode, s.last_sector_subheader.copy_codinginfo] })
  | Command.GetlocP =>
    endCommand (setInterrupt 3
      { s with response_fifo := s.response_fifo ++
          [1, 1, s.last_sector_header.minute, s.last_sector_header.second,
           s.last_sector_header.frame, s.last_sector_header.minute,
           s.last_sector_header.second, s.last_sector_header.frame] })
  | Command.GetTN =>
    match s.media with
    | some m =>
      endCommand (setInterrupt 3
        { s with response_fifo := s.response_fifo ++
            [secondaryBits s.secondary_status,
             decimalToBCD (truncate8 m.trackNumber),
             decimalToBCD (truncate8 m.trackCount)] })
    | none => endCommand (sendErrorResponse 0x80 s)
  | Command.GetTD =>
    let s := { s with panicked := s.panicked || s.param_fifo.isEmpty }
    let track := bcdToDecimal (s.param_fifo.headD 0)
    match s.media with
    | none => endCommand (sendErrorResponse 0x80 s)
    | some m =>
      if track > m.trackCount then endCommand (sendErrorResponse 0x10 s)
      else
        let pos := if track = 0 then Position.fromLBA m.lbaCount else m.trackStart track
        endCommand (setInterrupt 3
          { s with response_fifo := s.response_fifo ++
              [secondaryBits s.secondary_status,
               decimalToBCD (truncate8 pos.minute),
               decimalToBCD (truncate8 pos.second)] })
  | Command.Sync => { s with panicked := true }
  | Command.unknown _ => { s with panicked := true }

/-- `CDROM::BeginCommand`: clear the response FIFO, latch the opcode and
stage, and schedule execution after the ack delay. -/
def beginCommand (c : Command) (s : State) : State :=
  let s := { s with
    response_fifo := []
    command := c
    command_stage := 0
    command_remaining_ticks := getAckDelayForCommand c }
  if s.command_remaining_ticks = 0 then executeCommand s
  else updateStatusRegister { s with command_state := CommandState.WaitForExecute }

/-- `CDROM::Execute`: account elapsed ticks against the command
countdown and, independently, against the in-flight seek or read. -/
def execute (ticks : Int) (s : State) : State :=
  let s :=
    match s.command_state with
    | CommandState.Idle => s
    | CommandState.WaitForIRQClear => s
    | CommandState.WaitForExecute =>
      let s := { s with command_remaining_ticks := s.command_remaining_ticks - ticks }
      if s.command_remaining_ticks ≤ 0 then executeCommand s else s
  if s.secondary_status.IsActive then
    let s := { s with read_or_seek_remaining_ticks := s.read_or_seek_remaining_ticks - ticks }
    if s.read_or_seek_remaining_ticks ≤ 0 then
      if s.secondary_status.seeking then doSeekComplete s else doSectorRead s
    else s
  else s

/-- `CDROM::LoadDataFIFO`: fill the data FIFO from the sector buffer,
skipping the 12-byte sync (raw mode) or sync plus header/subheader (data
mode), then clear the buffer; a no-op when the buffer is empty. -/
def loadDataFIFO (s : State) : State :=
  if s.sector_buffer.isEmpty then s
  else
    let s :=
      if modeReadRawSector s.mode then
        { s with data_fifo := s.data_fifo ++ (s.sector_buffer.drop 12).take 2340 }
      else
        { s with data_fifo := s.data_fifo ++ (s.sector_buffer.drop 24).take 2048 }
    { s with sector_buffer := [] }

/-- `CDROM::ReadRegister`: the returned byte and the successor state
(reads of the response and data FIFOs pop and refresh the status). -/
def readRegister (offset : Nat) (s : State) : Nat × State :=
  match offset with
  | 0 => (statusBits s.status, s)
  | 1 =>
    if s.response_fifo.isEmpty then (0xFF, s)
    else (s.response_fifo.headD 0,
      updateStatusRegister { s with response_fifo := s.response_fifo.tail })
  | 2 => (s.data_fifo.headD 0, updateStatusRegister { s with data_fifo := s.data_fifo.tail })
  | 3 =>
    match s.status.index with
    | 0 => (s.interrupt_enable_register ||| 0xE0, s)
    | 2 => (s.interrupt_enable_register ||| 0xE0, s)
    | 1 => (s.interrupt_flag_register ||| 0xE0, s)
    | 3 => (s.interrupt_flag_register ||| 0xE0, s)
    | _ => (0, { s with panicked := true })
  | _ => (0, { s with panicked := true })

/-- The request-register write (offset 3, index 0): `SMEN` must be
clear (asserted in the source); `BFRD` loads the data FIFO from the
sector buffer, otherwise the data FIFO is cleared. -/
def writeRequestRegister (value : Nat) (s : State) : State :=
  let s := { s with panicked := s.panicked || value.testBit 5 }
  if value.testBit 7 then updateStatusRegister (loadDataFIFO s)
  else updateStatusRegister { s with data_fifo := [] }

/-- The re-inspection after a host interrupt acknowledge that left the
flag register zero: resume a command stalled in WaitForIRQClear, or
deliver a held async interrupt. -/
def ackAdvance (s : State) : State :=
  if s.interrupt_flag_register = 0 then
    if s.command_state = CommandState.WaitForIRQClear then
      { s with command_state := CommandState.WaitForExecute }
    else if s.pending_async_interrupt ≠ 0 then deliverAsyncInterrupt s
    else s
  else s

/-- The interrupt-flag write (offset 3, index 1): write-one-to-clear on
the low five bits, re-inspection when the register reaches zero, and bit
0x40 additionally clears the parameter FIFO. -/
def writeInterruptFlagRegister (value : Nat) (s : State) : State :=
  let s := ackAdvance
    { s with
      interrupt_flag_register :=
        s.interrupt_flag_register &&& (0xFF ^^^ (value &&& 0x1F)) }
  if value &&& 0x40 ≠ 0 then updateStatusRegister { s with param_fifo := [] } else s

/-- The apply-volume write (offset 3, index 3): bit 0 drives
`adpcm_muted`, bit 5 commits the staged matrix. -/
def writeVolumeApply (value : Nat) (s : State) : State :=
  let s := { s with adpcm_muted := value.testBit 0 }
  if value.testBit 5 then
    { s with cd_audio_volume_matrix := s.next_cd_audio_volume_matrix }
  else s

/-- `CDROM::WriteRegister`: the full 16-target write table of the
index-multiplexed register window. The bus delivers a byte, so the value
is truncated to 8 bits. -/
def writeRegister (offset value : Nat) (s : State) : State :=
  let value := value % 256
  match offset with
  | 0 => { s with status := { s.status with index := value % 4 } }
  | 1 =>
    match s.status.index with
    | 0 =>
      if s.command_state = CommandState.Idle then beginCommand (decodeCommand value) s else s
    | 1 => s
    | 2 => s
    | 3 =>
      { s with next_cd_audio_volume_matrix :=
          { s.next_cd_audio_volume_matrix with m10 := value } }
    | _ => s
  | 2 =>
    match s.status.index with
    | 0 =>
      let pf := if s.param_fifo.length ≥ 16 then s.param_fifo.tail else s.param_fifo
      updateStatusRegister { s with param_fifo := pf ++ [value] }
    | 1 => { s with interrupt_enable_register := value &&& 0x1F }
    | 2 =>
      { s with next_cd_audio_volume_matrix :=
          { s.next_cd_audio_volume_matrix with m00 := value } }
    | 3 =>
      { s with next_cd_audio_volume_matrix :=
          { s.next_cd_audio_volume_matrix with m10 := value } }
    | _ => s
  | 3 =>
    match s.status.index with
    | 0 => writeRequestRegister value s
    | 1 => writeInterruptFlagRegister value s
    | 2 =>
      { s with next_cd_audio_volume_matrix :=
          { s.next_cd_audio_volume_matrix with m01 := value } }
    | 3 => writeVolumeApply value s
    | _ => s
  | _ => s

/-- `CDROM::DMARead`: pop up to `word_count` words of bytes from the
data FIFO (the external buffer and its zero fill are not part of the
machine state). The status register is not refreshed. -/
def dmaRead (word_count : Nat) (s : State) : State :=
  { s with data_fifo := s.data_fifo.drop (min (word_count * 4) s.data_fifo.length) }

/-- `CDROM::SoftReset`: reset everything except the inserted media (and
the external-interface instrumentation), ending with a status
refresh. -/
def softReset (s : State) : State :=
  updateStatusRegister
    { s with
      command := Command.Sync
      command_state := CommandState.Idle
      command_stage := 0
      command_remaining_ticks := 0
      read_or_seek_remaining_ticks := 0
      status := ⟨0, false, false, false, false, false, false⟩
      secondary_status := SecondaryStatus.zero
      mode := 0
      interrupt_enable_register := 0x1F
      interrupt_flag_register := 0
      pending_async_interrupt := 0
      setloc_position := ⟨0, 0, 0⟩
      seek_position := ⟨0, 0, 0⟩
      setloc_pending := false
      read_after_seek := false
      play_after_seek := false
      muted := false
      adpcm_muted := false
      filter_file_number := 0
      filter_channel_number := 0
      last_sector_header := ⟨0, 0, 0, 0⟩
      last_sector_subheader := ⟨0, 0, 0, 0, 0, 0, 0, 0⟩
      next_cd_audio_volume_matrix := ⟨0x80, 0x00, 0x00, 0x80⟩
      cd_audio_volume_matrix := ⟨0x80, 0x00, 0x00, 0x80⟩
      xa_last_samples := [0, 0, 0, 0]
      xa_ring0 := fun _ => 0
      xa_ring1 := fun _ => 0
      xa_resample_p := 0
      xa_resample_sixstep := 6
      param_fifo := []
      response_fifo := []
      async_response_fifo := []
      data_fifo := []
      sector_buffer := [] }

/-- `CDROM::Reset`: seek the media back to sector 0 and soft-reset. -/
def reset (s : State) : State :=
  softReset
    { s with media := s.media.map (fun m => if m.seekOk 0 then { m with pos := 0 } else m) }

/-- `CDROM::InsertMedia` (successful open): the new image replaces any
previous one. -/
def insertMedia (m : Media) (s : State) : State := { s with media := some m }

/-- `CDROM::RemoveMedia`. -/
def removeMedia (s : State) : State := { s with media := none }

/-- The power-on state: a soft reset of a machine with no media and
clean instrumentation. -/
def initState : State :=
  softReset
    { command := Command.Sync
      command_state := CommandState.Idle
      command_stage := 0
      command_remaining_ticks := 0
      read_or_seek_remaining_ticks := 0
      status := ⟨0, false, false, false, false, false, false⟩
      secondary_status := SecondaryStatus.zero
      mode := 0
      interrupt_enable_register := 0x1F
      interrupt_flag_register := 0
      pending_async_interrupt := 0
      setloc_position := ⟨0, 0, 0⟩
      seek_position := ⟨0, 0, 0⟩
      setloc_pending := false
      read_after_seek := false
      play_after_seek := false
      muted := false
      adpcm_muted := false
      filter_file_number := 0
      filter_channel_number := 0
      last_sector_header := ⟨0, 0, 0, 0⟩
      last_sector_subheader := ⟨0, 0, 0, 0, 0, 0, 0, 0⟩
      cd_audio_volume_matrix := ⟨0x80, 0x00, 0x00, 0x80⟩
      next_cd_audio_volume_matrix := ⟨0x80, 0x00, 0x00, 0x80⟩
      xa_last_samples := [0, 0, 0, 0]
      xa_ring0 := fun _ => 0
      xa_ring1 := fun _ => 0
      xa_resample_p := 0
      xa_resample_sixstep := 6
      param_fifo := []
      response_fifo := []
      async_response_fifo := []
      data_fifo := []
      sector_buffer := []
      media := none
      dma_request := false
      irq_count := 0
      spu_events := []
      bad_async_delivery := false
      double_async := false
      panicked := false }

/-- One interaction of the environment (guest CPU, DMA engine, host
scheduler or media tray) with the controller. -/
inductive Step : State → State → Prop where
  | readReg (offset : Nat) (s : State) : Step s (readRegister offset s).2
  | writeReg (offset value : Nat) (s : State) : Step s (writeRegister offset value s)
  | dma (word_count : Nat) (s : State) : Step s (dmaRead word_count s)
  | run (ticks : Int) (s : State) : Step s (execute ticks s)
  | insert (m : Media) (s : State) : Step s (insertMedia m s)
  | remove (s : State) : Step s (removeMedia s)
  | hardReset (s : State) : Step s (reset s)

/-- The states reachable from power-on through any interaction
sequence. -/
def Reachable (s : State) : Prop := Relation.ReflTransGen Step initState s

/-!  Definitions supporting the claims: invariants, sample counting for
the resampler, and the concrete media and traces used by witnesses and
counterexamples. -/

/-- The status/FIFO coupling that survives every interaction: the DMA
request line always mirrors `DRQSTS`, a non-empty data FIFO always has
`DRQSTS` set, and `BUSYSTS` is only ever set while a command is waiting
to execute. -/
def InvA (s : State) : Prop :=
  (s.data_fifo ≠ [] → s.status.DRQSTS = true)
  ∧ s.dma_request = s.status.DRQSTS
  ∧ (s.status.BUSYSTS = true → s.command_state = CommandState.WaitForExecute)

/-- The instrumentation invariant: no async interrupt was ever delivered
while a synchronous flag was outstanding, and the staged and committed
volume matrices keep their reset value 0x80 in entry [1][1] (no register
write targets it). -/
def InvB (s : State) : Prop :=
  s.bad_async_delivery = false
  ∧ s.next_cd_audio_volume_matrix.m11 = 0x80
  ∧ s.cd_audio_volume_matrix.m11 = 0x80

/-- The combined inductive invariant of the reachable states. -/
def Inv (s : State) : Prop := InvA s ∧ InvB s

/-- Fields relevant to `Inv` that an operation leaves untouched. -/
def Frame (s t : State) : Prop :=
  t.data_fifo = s.data_fifo
  ∧ t.status = s.status
  ∧ t.dma_request = s.dma_request
  ∧ t.command_state = s.command_state
  ∧ t.bad_async_delivery = s.bad_async_delivery
  ∧ t.next_cd_audio_volume_matrix = s.next_cd_audio_volume_matrix
  ∧ t.cd_audio_volume_matrix = s.cd_audio_volume_matrix

/-- Successor value of the resampler's six-step phase counter. -/
def phaseNext (s : Nat) : Nat := if s = 1 then 6 else s - 1

/-- Number of mixer pushes produced by `k` ring writes starting with
phase counter `s`: seven outputs each time the counter hits zero. -/
def cnt : Nat → Nat → Nat
  | 0, _ => 0
  | Nat.succ k, s => (if s = 1 then 7 else 0) + cnt k (phaseNext s)

/-- Discriminate `AddCDAudioSample` events from reservations. -/
def isSampleEvent : SpuEvent → Bool
  | SpuEvent.sample _ _ => true
  | SpuEvent.ensure _ => false

/-- The duplication factor of the resampler input loop: half-rate
sources write each sample twice. -/
def xaDup (coding : Nat) : Nat := if codingIsHalfSampleRate coding then 2 else 1

/-- The count passed to `EnsureCDAudioSpace` by
`ProcessXAADPCMSector`: sample pairs for stereo, samples for mono. -/
def xaReserve (coding : Nat) : Nat :=
  if codingIsStereo coding then codingSamplesPerSector coding / 2
  else codingSamplesPerSector coding

/-- A concrete single-track disc image whose sectors are all zero
bytes. -/
def mediaA : Media :=
  { pos := 0
    readSector := fun _ => List.replicate 2352 0
    seekOk := fun _ => true
    lbaCount := 1000
    trackCount := 1
    trackNumber := 1
    trackStart := fun _ => ⟨0, 2, 0⟩ }

/-- Power-on state with `mediaA` inserted. -/
def sMedia : State := insertMedia mediaA initState

/-- Trace for the stale-DRQSTS counterexample: issue ReadN (opcode
0x06). -/
def c1State1 : State := writeRegister 1 0x06 sMedia

/-- After the 4000-tick ack delay ReadN executes and the drive starts
reading. -/
def c1State2 : State := execute 4000 c1State1

/-- After the remaining sector time the first sector is read into the
sector buffer. -/
def c1State3 : State := execute 447584 c1State2

/-- A request-register write with BFRD set loads the data FIFO (2048
data bytes). -/
def c1State4 : State := writeRegister 3 0x80 c1State3

/-- A 512-word DMA read drains the data FIFO completely. -/
def c1State5 : State := dmaRead 512 c1State4

/-- Trace for the stale-BUSYSTS counterexample: issue GetID (opcode
0x1A) with media present. -/
def c2State1 : State := writeRegister 1 0x1A sMedia

/-- After the ack delay GetID stage 0 acks and waits for the IRQ
clear. -/
def c2State2 : State := execute 4000 c2State1

/-- Select register index 1. -/
def c2State3 : State := writeRegister 0 0x01 c2State2

/-- Acknowledge the interrupt flags: the command advances from
WaitForIRQClear to WaitForExecute without a status refresh. -/
def c2State4 : State := writeRegister 3 0x1F c2State3

/-- A state with a synchronous flag outstanding. -/
def sFlag3 : State := setInterrupt 3 initState

/-- A state ready to process an XA sector: mono, 4-bit, full rate
coding (coding byte 0), not muted, resampler at its reset phase. -/
def xaState : State :=
  { sMedia with last_sector_subheader := ⟨1, 1, 0x64, 0, 1, 1, 0x64, 0⟩ }

/-- A reading state with an undelivered async interrupt pending, as
arises on back-to-back sector reads without host acknowledgement. -/
def c9State : State :=
  { sMedia with
    pending_async_interrupt := 1
    async_response_fifo := [34]
    interrupt_flag_register := 3
    secondary_status := { SecondaryStatus.zero with motor_on := true, reading := true } }

/-- A state with a latched setloc target 16 sectors away from the
image position, used to witness the seek-time formula. -/
def seekState : State :=
  { sMedia with setloc_pending := true, setloc_position := ⟨0, 2, 16⟩ }

/-- GetID about to execute with no media. -/
def getIDNoMedia : State := { initState with command := Command.GetID }

/-- GetID stage 0 about to execute with media. -/
def getIDMedia : State := { sMedia with command := Command.GetID }

/-- GetID stage 1 about to execute. -/
def getIDStage1 : State := { sMedia with command := Command.GetID, command_stage := 1 }

/-- GetTD about to execute with no media. -/
def getTDNoMedia : State := { initState with command := Command.GetTD, param_fifo := [0x01] }

/-- GetTD with media and an out-of-range track (BCD 0x02, track count
1). -/
def getTDBadTrack : State := { sMedia with command := Command.GetTD, param_fifo := [0x02] }

/-- GetTD with media and track 0 (end-of-disc request). -/
def getTDTrack0 : State := { sMedia with command := Command.GetTD, param_fifo := [0x00] }

/-- GetTD with media and track 1. -/
def getTDTrack1 : State := { sMedia with command := Command.GetTD, param_fifo := [0x01] }

/-- Power-on state with register index 3 latched. -/
def idx3State : State := { initState with status := { initState.status with index := 3 } }

/-- Power-on state with register index 2 latched. -/
def idx2State : State := { initState with status := { initState.status with index := 2 } }

/-!  Invariant-preservation lemmas, one per controller operation. -/

lemma frame_refl (s : State) : Frame s s := ⟨rfl, rfl, rfl, rfl, rfl, rfl, rfl⟩

lemma frame_trans {s t u : State} (h1 : Frame s t) (h2 : Frame t u) : Frame s u := by
  obtain ⟨a1, a2, a3, a4, a5, a6, a7⟩ := h1
  obtain ⟨b1, b2, b3, b4, b5, b6, b7⟩ := h2
  exact ⟨b1.trans a1, b2.trans a2, b3.trans a3, b4.trans a4, b5.trans a5, b6.trans a6, b7.trans a7⟩

lemma invA_of_frame {s t : State} (hf : Frame s t) (h : InvA s) : InvA t := by
  obtain ⟨f1, f2, f3, f4, f5, f6, f7⟩ := hf
  obtain ⟨h1, h2, h3⟩ := h
  refine ⟨?_, ?_, ?_⟩
  · rw [f1, f2]; exact h1
  · rw [f2, f3]; exact h2
  · rw [f2, f4]; exact h3

lemma invB_of_frame {s t : State} (hf : Frame s t) (h : InvB s) : InvB t := by
  obtain ⟨f1, f2, f3, f4, f5, f6, f7⟩ := hf
  obtain ⟨h1, h2, h3⟩ := h
  exact ⟨f5 ▸ h1, f6 ▸ h2, f7 ▸ h3⟩

lemma inv_of_frame {s t : State} (hf : Frame s t) (h : Inv s) : Inv t :=
  ⟨invA_of_frame hf h.1, invB_of_frame hf h.2⟩

lemma frame_setAsyncInterrupt (c : Nat) (s : State) : Frame s (setAsyncInterrupt c s) := by
  unfold setAsyncInterrupt deliverAsyncInterrupt hasPendingInterrupt
  dsimp only
  split
  · exact ⟨rfl, rfl, rfl, rfl, rfl, rfl, rfl⟩
  · rename_i hcond
    simp only [bne_iff_ne, ne_eq, not_not] at hcond
    refine ⟨rfl, rfl, rfl, rfl, ?_, rfl, rfl⟩
    simp [hcond]

lemma frame_sendAsyncErrorResponse (reason : Nat) (s : State) :
    Frame s (sendAsyncErrorResponse reason s) := by
  unfold sendAsyncErrorResponse
  exact frame_trans (frame_refl _) (frame_setAsyncInterrupt 5 _)

lemma frame_stopReading (s : State) : Frame s (stopReading s) := by
  unfold stopReading
  dsimp only
  split
  · exact ⟨rfl, rfl, rfl, rfl, rfl, rfl, rfl⟩
  · exact frame_refl s

lemma frame_beginSeeking (s : State) : Frame s (beginSeeking s) := by
  unfold beginSeeking
  dsimp only
  split
  · exact ⟨rfl, rfl, rfl, rfl, rfl, rfl, rfl⟩
  · exact ⟨rfl, rfl, rfl, rfl, rfl, rfl, rfl⟩

lemma frame_beginReading (cdda : Bool) (s : State) : Frame s (beginReading cdda s) := by
  unfold beginReading beginReadingBody
  dsimp only
  split
  · split
    · exact ⟨rfl, rfl, rfl, rfl, rfl, rfl, rfl⟩
    · split
      · exact frame_trans (frame_beginSeeking s) ⟨rfl, rfl, rfl, rfl, rfl, rfl, rfl⟩
      · exact ⟨rfl, rfl, rfl, rfl, rfl, rfl, rfl⟩
  · exact ⟨rfl, rfl, rfl, rfl, rfl, rfl, rfl⟩

lemma frame_processXAADPCMSector (s : State) : Frame s (processXAADPCMSector s) := by
  unfold processXAADPCMSector resampleXAADPCM
  dsimp only
  split
  · exact frame_refl s
  · split
    · exact ⟨rfl, rfl, rfl, rfl, rfl, rfl, rfl⟩
    · exact ⟨rfl, rfl, rfl, rfl, rfl, rfl, rfl⟩

lemma frame_processCDDASector (s : State) : Frame s (processCDDASector s) := by
  unfold processCDDASector
  dsimp only
  split
  · exact ⟨rfl, rfl, rfl, rfl, rfl, rfl, rfl⟩
  · exact ⟨rfl, rfl, rfl, rfl, rfl, rfl, rfl⟩

lemma frame_deliver_of_flag0 {s : State} (h : s.interrupt_flag_register = 0) :
    Frame s (deliverAsyncInterrupt s) := by
  unfold deliverAsyncInterrupt hasPendingInterrupt
  refine ⟨rfl, rfl, rfl, rfl, ?_, rfl, rfl⟩
  simp [h]

lemma invA_updateStatusRegister (s : State) : InvA (updateStatusRegister s) := by
  refine ⟨?_, rfl, ?_⟩
  · intro h
    unfold updateStatusRegister
    cases hd : s.data_fifo with
    | nil => exact absurd hd h
    | cons a l => simp [hd]
  · intro h
    unfold updateStatusRegister at h ⊢
    simpa using h

lemma invB_updateStatusRegister {s : State} (h : InvB s) : InvB (updateStatusRegister s) := h

lemma inv_updateStatusRegister {s : State} (h : InvB s) : Inv (updateStatusRegister s) :=
  ⟨invA_updateStatusRegister s, h⟩

lemma inv_endCommand {s : State} (h : InvB s) : Inv (endCommand s) :=
  inv_updateStatusRegister h

lemma inv_nextCommandStage {w : Bool} {t : Int} {s : State} (h : InvB s) :
    Inv (nextCommandStage w t s) := by
  unfold nextCommandStage
  split
  · exact inv_updateStatusRegister h
  · exact inv_updateStatusRegister h

lemma invB_loadDataFIFO {s : State} (h : InvB s) : InvB (loadDataFIFO s) := by
  unfold loadDataFIFO
  dsimp only
  split
  · exact h
  · split
    · exact h
    · exact h


lemma inv_passSectorToCPU {s : State} (h : InvB s) : Inv (passSectorToCPU s) := by
  unfold passSectorToCPU
  exact inv_updateStatusRegister
    (invB_of_frame (frame_setAsyncInterrupt 1 _) h)

lemma inv_processDataSector {s : State} (h : Inv s) : Inv (processDataSector s) := by
  unfold processDataSector
  dsimp only
  split
  · split
    · refine inv_of_frame ?_ h
      refine frame_trans ?_ (⟨rfl, rfl, rfl, rfl, rfl, rfl, rfl⟩ :
        Frame _ _)
      split
      · exact frame_refl _
      · exact frame_trans (frame_refl _) (frame_processXAADPCMSector _)
    · exact inv_passSectorToCPU h.2
  · exact inv_passSectorToCPU h.2

lemma inv_doSeekComplete {s : State} (h : Inv s) : Inv (doSeekComplete s) := by
  unfold doSeekComplete
  dsimp only
  have hgoal : ∀ t : State, Inv t →
      Inv { t with setloc_pending := false, read_after_seek := false, play_after_seek := false } :=
    fun t ht => ht
  apply hgoal
  split
  · split
    · apply inv_updateStatusRegister
      apply invB_of_frame (frame_setAsyncInterrupt 2 _)
      split
      · exact invB_of_frame (frame_beginReading _ _) h.2
      · exact h.2
    · exact inv_of_frame (frame_sendAsyncErrorResponse 0x80 _) h
  · exact inv_of_frame (frame_sendAsyncErrorResponse 0x80 _) h

lemma inv_doSectorReadCore {s : State} (h : Inv s) : Inv (doSectorReadCore s) := by
  unfold doSectorReadCore
  dsimp only
  split
  · exact h
  · have hgoal : ∀ t : State, Inv t →
        Inv { t with read_or_seek_remaining_ticks := t.read_or_seek_remaining_ticks + getTicksForRead t } :=
      fun t ht => ht
    apply hgoal
    split
    · exact inv_processDataSector h
    · split
      · exact inv_of_frame (frame_processCDDASector _) h
      · exact h

lemma inv_doSectorRead {s : State} (h : Inv s) : Inv (doSectorRead s) := by
  unfold doSectorRead
  split
  · exact inv_doSectorReadCore h
  · exact inv_doSectorReadCore h

lemma inv_executeTestCommand {sub : Nat} {s : State} (h : Inv s) :
    Inv (executeTestCommand sub s) := by
  unfold executeTestCommand
  split
  · exact inv_endCommand h.2
  · split
    · exact inv_endCommand h.2
    · exact h

lemma inv_executeCommand {s : State} (h : Inv s) : Inv (executeCommand s) := by
  have hB := h.2
  unfold executeCommand
  split
  · exact inv_endCommand hB
  · exact inv_executeTestCommand h
  · -- GetID
    split
    · split
      · exact inv_endCommand hB
      · exact inv_nextCommandStage hB
    · exact inv_endCommand hB
  · exact inv_endCommand hB
  · exact inv_endCommand hB
  · exact inv_endCommand hB
  · -- SeekL
    split
    · exact inv_endCommand hB
    · exact inv_endCommand
        (invB_of_frame (frame_beginSeeking _) (invB_of_frame (frame_stopReading _) hB))
  · -- SeekP
    split
    · exact inv_endCommand hB
    · exact inv_endCommand
        (invB_of_frame (frame_beginSeeking _) (invB_of_frame (frame_stopReading _) hB))
  · -- ReadN
    split
    · exact inv_endCommand hB
    · exact inv_endCommand
        (invB_of_frame (frame_beginReading _ _) (invB_of_frame (frame_stopReading _) hB))
  · -- ReadS
    split
    · exact inv_endCommand hB
    · exact inv_endCommand
        (invB_of_frame (frame_beginReading _ _) (invB_of_frame (frame_stopReading _) hB))
  · -- Play
    split
    · exact inv_endCommand hB
    · dsimp only
      refine inv_endCommand (invB_of_frame (frame_beginReading _ _) ?_)
      repeat' split
      all_goals exact hB
  · -- Pause
    split
    · exact inv_nextCommandStage (invB_of_frame (frame_stopReading _) hB)
    · exact inv_endCommand hB
  · -- Init
    split
    · exact inv_nextCommandStage (invB_of_frame (frame_stopReading _) hB)
    · exact inv_endCommand hB
  · exact inv_endCommand hB
  · exact inv_endCommand hB
  · exact inv_endCommand hB
  · exact inv_endCommand hB
  · -- GetTN
    split
    · exact inv_endCommand hB
    · exact inv_endCommand hB
  · -- GetTD
    dsimp only
    split
    · exact inv_endCommand hB
    · split
      · exact inv_endCommand hB
      · exact inv_endCommand hB
  · exact h
  · exact h

lemma inv_beginCommand {c : Command} {s : State} (h : Inv s) : Inv (beginCommand c s) := by
  unfold beginCommand
  dsimp only
  split
  · exact inv_executeCommand h
  · exact inv_updateStatusRegister h.2

lemma inv_execute {t : Int} {s : State} (h : Inv s) : Inv (execute t s) := by
  unfold execute
  dsimp only
  have hmid : ∀ u : State, Inv u →
      Inv (if u.secondary_status.IsActive = true then
        (fun u : State => if u.read_or_seek_remaining_ticks ≤ 0 then
          (if u.secondary_status.seeking = true then doSeekComplete u else doSectorRead u)
          else u)
        { u with read_or_seek_remaining_ticks := u.read_or_seek_remaining_ticks - t }
      else u) := by
    intro u hu
    split
    · dsimp only
      split
      · split
        · exact inv_doSeekComplete hu
        · exact inv_doSectorRead hu
      · exact hu
    · exact hu
  apply hmid
  split
  · exact h
  · exact h
  · split
    · exact inv_executeCommand h
    · exact h

lemma inv_readRegister {offset : Nat} {s : State} (h : Inv s) :
    Inv (readRegister offset s).2 := by
  unfold readRegister
  split
  · exact h
  · split
    · exact h
    · exact inv_updateStatusRegister h.2
  · exact inv_updateStatusRegister h.2
  · split
    · exact h
    · exact h
    · exact h
    · exact h
    · exact h
  · exact h

lemma inv_writeRequestRegister {value : Nat} {s : State} (h : Inv s) :
    Inv (writeRequestRegister value s) := by
  unfold writeRequestRegister
  dsimp only
  split
  · exact inv_updateStatusRegister (invB_loadDataFIFO h.2)
  · exact inv_updateStatusRegister h.2

lemma inv_ackAdvance {s : State} (h : Inv s) : Inv (ackAdvance s) := by
  unfold ackAdvance
  split
  · rename_i hflag
    split
    · exact ⟨⟨h.1.1, h.1.2.1, fun _ => rfl⟩, h.2⟩
    · split
      · exact inv_of_frame (frame_deliver_of_flag0 hflag) h
      · exact h
  · exact h

lemma inv_writeInterruptFlagRegister {value : Nat} {s : State} (h : Inv s) :
    Inv (writeInterruptFlagRegister value s) := by
  unfold writeInterruptFlagRegister
  dsimp only
  have h2 : Inv (ackAdvance
      { s with interrupt_flag_register :=
          s.interrupt_flag_register &&& (0xFF ^^^ (value &&& 0x1F)) }) :=
    inv_ackAdvance h
  split
  · exact inv_updateStatusRegister h2.2
  · exact h2

lemma inv_writeVolumeApply {value : Nat} {s : State} (h : Inv s) :
    Inv (writeVolumeApply value s) := by
  unfold writeVolumeApply
  dsimp only
  split
  · exact ⟨h.1, ⟨h.2.1, h.2.2.1, h.2.2.1⟩⟩
  · exact h

lemma inv_writeRegister {offset value : Nat} {s : State} (h : Inv s) :
    Inv (writeRegister offset value s) := by
  unfold writeRegister
  split
  · exact h
  · -- offset 1
    split
    · split
      · exact inv_beginCommand h
      · exact h
    · exact h
    · exact h
    · exact h
    · exact h
  · -- offset 2
    split
    · exact inv_updateStatusRegister h.2
    · exact h
    · exact h
    · exact h
    · exact h
  · -- offset 3
    split
    · exact inv_writeRequestRegister h
    · exact inv_writeInterruptFlagRegister h
    · exact h
    · exact inv_writeVolumeApply h
    · exact h
  · exact h

lemma inv_dmaRead {wc : Nat} {s : State} (h : Inv s) : Inv (dmaRead wc s) := by
  refine ⟨⟨?_, h.1.2.1, h.1.2.2⟩, h.2⟩
  intro hne
  apply h.1.1
  intro hnil
  unfold dmaRead at hne
  simp [hnil] at hne

lemma inv_softReset {s : State} (h : InvB s) : Inv (softReset s) := by
  unfold softReset
  exact inv_updateStatusRegister ⟨h.1, rfl, rfl⟩

lemma inv_reset {s : State} (h : Inv s) : Inv (reset s) := by
  unfold reset
  exact inv_softReset h.2

lemma inv_initState : Inv initState := by
  refine ⟨⟨?_, rfl, ?_⟩, ⟨rfl, rfl, rfl⟩⟩
  · intro hne
    exact absurd rfl hne
  · intro hb
    exact absurd hb (by decide)

lemma inv_reachable {s : State} (h : Reachable s) : Inv s := by
  induction h with
  | refl => exact inv_initState
  | tail _ hstep ih =>
    cases hstep with
    | readReg offset s => exact inv_readRegister ih
    | writeReg offset value s => exact inv_writeRegister ih
    | dma wc s => exact inv_dmaRead ih
    | run t s => exact inv_execute ih
    | insert m s => exact ih
    | remove s => exact ih
    | hardReset s => exact inv_reset ih


/-!  Counting lemmas for the resampler and the CDDA loop. -/

lemma phaseNext_range {s : Nat} (h1 : 1 ≤ s) (h6 : s ≤ 6) :
    1 ≤ phaseNext s ∧ phaseNext s ≤ 6 := by
  unfold phaseNext
  split <;> omega

lemma cnt_succ (m s : Nat) :
    cnt (m + 1) s = (if s = 1 then 7 else 0) + cnt m (phaseNext s) := rfl

lemma stepOne_spec (st : Bool) (M : VolumeMatrix) (l r : Int) (rs : RState)
    (h1 : 1 ≤ rs.sixstep) (h6 : rs.sixstep ≤ 6) :
    (stepOne st M l r rs).sixstep = phaseNext rs.sixstep ∧
    (stepOne st M l r rs).out.length = rs.out.length + (if rs.sixstep = 1 then 7 else 0) := by
  have hmod : (rs.sixstep + 255) % 256 = rs.sixstep - 1 := by omega
  unfold stepOne
  dsimp only
  rw [hmod]
  by_cases h : rs.sixstep = 1
  · rw [h]
    norm_num
    simp [emitSeven, phaseNext]
  · have hne : rs.sixstep - 1 ≠ 0 := by omega
    rw [if_neg hne]
    simp [phaseNext, h]

lemma stepOne_cnt (st : Bool) (M : VolumeMatrix) (l r : Int) (rs : RState)
    (h1 : 1 ≤ rs.sixstep) (h6 : rs.sixstep ≤ 6) :
    (1 ≤ (stepOne st M l r rs).sixstep ∧ (stepOne st M l r rs).sixstep ≤ 6) ∧
    ∀ m : Nat, (stepOne st M l r rs).out.length + cnt m (stepOne st M l r rs).sixstep
      = rs.out.length + cnt (m + 1) rs.sixstep := by
  obtain ⟨hsix, hlen⟩ := stepOne_spec st M l r rs h1 h6
  constructor
  · rw [hsix]
    exact phaseNext_range h1 h6
  · intro m
    rw [hsix, hlen, cnt_succ]
    omega

lemma stepDup_cnt (st hf : Bool) (M : VolumeMatrix) (l r : Int) (rs : RState)
    (h1 : 1 ≤ rs.sixstep) (h6 : rs.sixstep ≤ 6) :
    (1 ≤ (stepDup st hf M l r rs).sixstep ∧ (stepDup st hf M l r rs).sixstep ≤ 6) ∧
    ∀ m : Nat, (stepDup st hf M l r rs).out.length + cnt m (stepDup st hf M l r rs).sixstep
      = rs.out.length + cnt (m + (if hf then 2 else 1)) rs.sixstep := by
  unfold stepDup
  by_cases hhf : hf
  · rw [if_pos hhf, if_pos hhf]
    obtain ⟨⟨ha1, ha6⟩, hacc⟩ := stepOne_cnt st M l r rs h1 h6
    obtain ⟨⟨hb1, hb6⟩, hbcc⟩ := stepOne_cnt st M l r _ ha1 ha6
    refine ⟨⟨hb1, hb6⟩, fun m => ?_⟩
    rw [hbcc m, hacc (m + 1)]
  · rw [if_neg hhf, if_neg hhf]
    obtain ⟨⟨ha1, ha6⟩, hacc⟩ := stepOne_cnt st M l r rs h1 h6
    exact ⟨⟨ha1, ha6⟩, hacc⟩

lemma resampleGo_len (st hf : Bool) (M : VolumeMatrix) :
    ∀ (n : Nat) (input : List Int) (rs : RState), 1 ≤ rs.sixstep → rs.sixstep ≤ 6 →
    (resampleGo st hf M n input rs).out.length
      = rs.out.length + cnt ((if hf then 2 else 1) * n) rs.sixstep := by
  intro n
  induction n with
  | zero =>
    intro input rs h1 h6
    simp [resampleGo, cnt]
  | succ k ih =>
    intro input rs h1 h6
    rw [resampleGo]
    obtain ⟨⟨hd1, hd6⟩, hdcc⟩ := stepDup_cnt st hf M (input.headD 0)
      (if st then input.tail.headD 0 else input.headD 0) rs h1 h6
    have harg : (if hf then 2 else 1) * k + (if hf then 2 else 1)
        = (if hf then 2 else 1) * (k + 1) := by
      cases hf <;> simp [Nat.mul_succ]
    rw [ih _ _ hd1 hd6, hdcc ((if hf then 2 else 1) * k), harg]

lemma cnt_closed : ∀ (k s : Nat), 1 ≤ s → s ≤ 6 → cnt k s = 7 * ((k + 6 - s) / 6) := by
  intro k
  induction k with
  | zero =>
    intro s h1 h6
    have : (6 - s) / 6 = 0 := Nat.div_eq_of_lt (by omega)
    simp [cnt, this]
  | succ k ih =>
    intro s h1 h6
    rw [cnt_succ]
    by_cases h : s = 1
    · rw [h]
      rw [if_pos rfl]
      unfold phaseNext
      rw [if_pos rfl]
      rw [ih 6 (by omega) (by omega)]
      have h1 : k + 1 + 6 - 1 = k + 6 := by omega
      have h2 : k + 6 - 6 = k := by omega
      rw [h1, h2]
      rw [Nat.add_div_right k (by omega)]
      ring
    · rw [if_neg h]
      unfold phaseNext
      rw [if_neg h]
      rw [ih (s - 1) (by omega) (by omega)]
      have : k + 6 - (s - 1) = k + 1 + 6 - s := by omega
      rw [this]
      omega


lemma countP_sample_map (l : List (Int × Int)) :
    (l.map (fun pr => SpuEvent.sample pr.1 pr.2)).countP isSampleEvent = l.length := by
  induction l with
  | nil => rfl
  | cons a t ih => simp [List.countP_cons, isSampleEvent, ih]

lemma cddaPairs_length (M : VolumeMatrix) :
    ∀ (n : Nat) (bytes : List Nat), (cddaPairs M n bytes).length = n := by
  intro n
  induction n with
  | zero => intro bytes; rfl
  | succ k ih => intro bytes; simp [cddaPairs, ih]

lemma processCDDA_events {s : State} (hm : s.muted = false) :
    ∃ rest : List SpuEvent,
      (processCDDASector s).spu_events = s.spu_events ++ SpuEvent.ensure 588 :: rest
      ∧ rest.countP isSampleEvent = 588 ∧ rest.length = 588 := by
  unfold processCDDASector
  dsimp only
  rw [hm]
  refine ⟨(cddaPairs s.cd_audio_volume_matrix 588 s.sector_buffer).map
    (fun pr => SpuEvent.sample pr.1 pr.2), ?_, ?_, ?_⟩
  · simp
  · rw [countP_sample_map, cddaPairs_length]
  · rw [List.length_map, cddaPairs_length]

lemma processXA_events {s : State} (hm : s.muted = false) (ha : s.adpcm_muted = false)
    (h1 : 1 ≤ s.xa_resample_sixstep) (h6 : s.xa_resample_sixstep ≤ 6) :
    ∃ rest : List SpuEvent,
      (processXAADPCMSector s).spu_events
        = s.spu_events ++ SpuEvent.ensure (xaReserve s.last_sector_subheader.codinginfo) :: rest
      ∧ rest.countP isSampleEvent
          = 7 * ((xaDup s.last_sector_subheader.codinginfo
              * xaReserve s.last_sector_subheader.codinginfo + 6 - s.xa_resample_sixstep) / 6)
      ∧ rest.length = rest.countP isSampleEvent := by
  unfold processXAADPCMSector resampleXAADPCM
  dsimp only
  rw [hm, ha]
  rw [if_neg (by simp)]
  by_cases hst : codingIsStereo s.last_sector_subheader.codinginfo
  · have hres : xaReserve s.last_sector_subheader.codinginfo
        = codingSamplesPerSector s.last_sector_subheader.codinginfo / 2 := by
      unfold xaReserve
      rw [if_pos hst]
    rw [if_pos hst, hres]
    have hlen := resampleGo_len true (codingIsHalfSampleRate s.last_sector_subheader.codinginfo)
      s.cd_audio_volume_matrix (codingSamplesPerSector s.last_sector_subheader.codinginfo / 2)
      (decodeADPCMSector s.last_sector_subheader.codinginfo)
      { ring0 := s.xa_ring0, ring1 := s.xa_ring1, p := s.xa_resample_p,
        sixstep := s.xa_resample_sixstep, out := [] } h1 h6
    simp only [List.length_nil, Nat.zero_add] at hlen
    refine ⟨List.map (fun pr => SpuEvent.sample pr.1 pr.2)
        (resampleGo true (codingIsHalfSampleRate s.last_sector_subheader.codinginfo)
          s.cd_audio_volume_matrix (codingSamplesPerSector s.last_sector_subheader.codinginfo / 2)
          (decodeADPCMSector s.last_sector_subheader.codinginfo)
          { ring0 := s.xa_ring0, ring1 := s.xa_ring1, p := s.xa_resample_p,
            sixstep := s.xa_resample_sixstep, out := [] }).out,
      by simp, ?_, by rw [List.length_map, countP_sample_map]⟩
    rw [countP_sample_map, hlen, cnt_closed _ _ h1 h6]
    unfold xaDup
    rfl
  · have hres : xaReserve s.last_sector_subheader.codinginfo
        = codingSamplesPerSector s.last_sector_subheader.codinginfo := by
      unfold xaReserve
      rw [if_neg hst]
    rw [if_neg hst, hres]
    have hlen := resampleGo_len false (codingIsHalfSampleRate s.last_sector_subheader.codinginfo)
      s.cd_audio_volume_matrix (codingSamplesPerSector s.last_sector_subheader.codinginfo)
      (decodeADPCMSector s.last_sector_subheader.codinginfo)
      { ring0 := s.xa_ring0, ring1 := s.xa_ring1, p := s.xa_resample_p,
        sixstep := s.xa_resample_sixstep, out := [] } h1 h6
    simp only [List.length_nil, Nat.zero_add] at hlen
    refine ⟨List.map (fun pr => SpuEvent.sample pr.1 pr.2)
        (resampleGo false (codingIsHalfSampleRate s.last_sector_subheader.codinginfo)
          s.cd_audio_volume_matrix (codingSamplesPerSector s.last_sector_subheader.codinginfo)
          (decodeADPCMSector s.last_sector_subheader.codinginfo)
          { ring0 := s.xa_ring0, ring1 := s.xa_ring1, p := s.xa_resample_p,
            sixstep := s.xa_resample_sixstep, out := [] }).out,
      by simp, ?_, by rw [List.length_map, countP_sample_map]⟩
    rw [countP_sample_map, hlen, cnt_closed _ _ h1 h6]
    unfold xaDup
    rfl


/-!  Symbolic evaluation of the DMA-drain trace (the data FIFO contents
are tracked through take/drop/replicate lemmas rather than evaluated
element by element). -/

lemma setAsyncInterrupt_sector (c : Nat) (s : State) :
    (setAsyncInterrupt c s).sector_buffer = s.sector_buffer := by
  unfold setAsyncInterrupt deliverAsyncInterrupt
  dsimp only
  split <;> rfl

lemma passSectorToCPU_sector (s : State) :
    (passSectorToCPU s).sector_buffer = s.sector_buffer := by
  unfold passSectorToCPU updateStatusRegister
  dsimp only
  rw [setAsyncInterrupt_sector]

lemma c1State3_sector : c1State3.sector_buffer = List.replicate 2352 0 := by
  have hcs : c1State2.command_state = CommandState.Idle := by decide
  have hact : c1State2.secondary_status.IsActive = true := by decide
  have hseek : c1State2.secondary_status.seeking = false := by decide
  have hread : c1State2.secondary_status.reading = true := by decide
  have hticks : c1State2.read_or_seek_remaining_ticks = 447584 := by decide
  have hpend : (c1State2.pending_async_interrupt != 0) = false := by decide
  have hmode : modeXAEnable c1State2.mode = false := by decide
  have hmedia : c1State2.media = some mediaA := rfl
  have hc2 : ((447584 : Int) - 447584 ≤ 0) = True := by norm_num
  show (execute 447584 c1State2).sector_buffer = List.replicate 2352 0
  simp only [execute, hcs, hact, hticks, hseek, hread, hpend, hmode, hmedia, hc2,
    doSectorRead, doSectorReadCore, processDataSector, passSectorToCPU_sector,
    setAsyncInterrupt_sector, padSector, mediaA, Bool.false_and, Bool.and_false,
    if_true, Bool.false_eq_true, if_false]
  rw [List.take_left' (List.length_replicate 2352 0)]

lemma writeReg_bfrd_data {s : State} (hidx : s.status.index = 0)
    (hraw : modeReadRawSector s.mode = false)
    (hsec : s.sector_buffer = List.replicate 2352 0) (hdata : s.data_fifo = []) :
    (writeRegister 3 0x80 s).data_fifo = List.replicate 2048 0 := by
  have hbit7 : (128 : Nat).testBit 7 = true := by decide
  have hne : (List.replicate 2352 (0 : Nat)).isEmpty = false := by
    rw [List.isEmpty_eq_false_iff_exists_mem]
    exact ⟨0, List.mem_replicate.2 ⟨by norm_num, rfl⟩⟩
  simp only [writeRegister, hidx]
  simp only [writeRequestRegister, hbit7, if_true, updateStatusRegister]
  simp only [loadDataFIFO, hsec, hraw, hne, hdata, Bool.false_eq_true, if_false]
  rw [List.drop_replicate, List.take_replicate]
  norm_num

lemma dmaRead_drain {s : State} (h : s.data_fifo = List.replicate 2048 0) :
    (dmaRead 512 s).data_fifo = [] := by
  simp only [dmaRead, h, List.length_replicate]
  rw [show min (512 * 4) 2048 = 2048 by norm_num]
  rw [List.drop_replicate]
  norm_num

lemma c1State4_data : c1State4.data_fifo = List.replicate 2048 0 :=
  writeReg_bfrd_data (by decide) (by decide) c1State3_sector (by decide)

lemma c1State5_data : c1State5.data_fifo = [] :=
  dmaRead_drain c1State4_data

/-!  Reachability of the trace states. -/

lemma reach_sMedia : Reachable sMedia :=
  Relation.ReflTransGen.tail Relation.ReflTransGen.refl (Step.insert mediaA initState)

lemma reach_c1State1 : Reachable c1State1 :=
  Relation.ReflTransGen.tail reach_sMedia (Step.writeReg 1 0x06 sMedia)

lemma reach_c1State2 : Reachable c1State2 :=
  Relation.ReflTransGen.tail reach_c1State1 (Step.run 4000 c1State1)

lemma reach_c1State3 : Reachable c1State3 :=
  Relation.ReflTransGen.tail reach_c1State2 (Step.run 447584 c1State2)

lemma reach_c1State4 : Reachable c1State4 :=
  Relation.ReflTransGen.tail reach_c1State3 (Step.writeReg 3 0x80 c1State3)

lemma reach_c1State5 : Reachable c1State5 :=
  Relation.ReflTransGen.tail reach_c1State4 (Step.dma 512 c1State4)

lemma reach_c2State1 : Reachable c2State1 :=
  Relation.ReflTransGen.tail reach_sMedia (Step.writeReg 1 0x1A sMedia)

lemma reach_c2State2 : Reachable c2State2 :=
  Relation.ReflTransGen.tail reach_c2State1 (Step.run 4000 c2State1)

lemma reach_c2State3 : Reachable c2State3 :=
  Relation.ReflTransGen.tail reach_c2State2 (Step.writeReg 0 0x01 c2State2)

lemma reach_c2State4 : Reachable c2State4 :=
  Relation.ReflTransGen.tail reach_c2State3 (Step.writeReg 3 0x1F c2State3)


/-!  Frame lemmas for the double-pending instrumentation and the staged
volume matrix. -/

lemma setAsync_double_of_pending0 {c : Nat} {s : State}
    (h : s.pending_async_interrupt = 0) :
    (setAsyncInterrupt c s).double_async = s.double_async := by
  unfold setAsyncInterrupt deliverAsyncInterrupt
  dsimp only
  rw [h]
  split <;> simp

lemma passSectorToCPU_double {s : State} (h : s.pending_async_interrupt = 0) :
    (passSectorToCPU s).double_async = s.double_async := by
  unfold passSectorToCPU updateStatusRegister
  dsimp only
  exact setAsync_double_of_pending0 h

lemma processXA_double (s : State) :
    (processXAADPCMSector s).double_async = s.double_async := by
  unfold processXAADPCMSector resampleXAADPCM
  dsimp only
  split
  · rfl
  · split <;> rfl

lemma processCDDA_double (s : State) :
    (processCDDASector s).double_async = s.double_async := by
  unfold processCDDASector
  dsimp only
  split <;> rfl

lemma processData_double {s : State} (h : s.pending_async_interrupt = 0) :
    (processDataSector s).double_async = s.double_async := by
  unfold processDataSector
  dsimp only
  split
  · split
    · dsimp only
      split
      · rfl
      · rw [processXA_double]
    · exact passSectorToCPU_double h
  · exact passSectorToCPU_double h

lemma doSectorReadCore_double {s : State} (h : s.pending_async_interrupt = 0) :
    (doSectorReadCore s).double_async = s.double_async := by
  unfold doSectorReadCore
  dsimp only
  split
  · rfl
  · show (if _ then processDataSector _ else _).double_async = s.double_async
    split
    · exact processData_double h
    · split
      · exact processCDDA_double _
      · rfl

lemma loadDataFIFO_next (s : State) :
    (loadDataFIFO s).next_cd_audio_volume_matrix = s.next_cd_audio_volume_matrix := by
  unfold loadDataFIFO
  dsimp only
  split
  · rfl
  · split <;> rfl

lemma writeRequestRegister_next (v : Nat) (s : State) :
    (writeRequestRegister v s).next_cd_audio_volume_matrix
      = s.next_cd_audio_volume_matrix := by
  unfold writeRequestRegister updateStatusRegister
  dsimp only
  split
  · rw [loadDataFIFO_next]
  · rfl

lemma ackAdvance_next (s : State) :
    (ackAdvance s).next_cd_audio_volume_matrix = s.next_cd_audio_volume_matrix := by
  unfold ackAdvance deliverAsyncInterrupt
  split
  · split
    · rfl
    · split <;> rfl
  · rfl

lemma writeInterruptFlagRegister_next (v : Nat) (s : State) :
    (writeInterruptFlagRegister v s).next_cd_audio_volume_matrix
      = s.next_cd_audio_volume_matrix := by
  unfold writeInterruptFlagRegister updateStatusRegister
  dsimp only
  split
  · rw [ackAdvance_next]
  · rw [ackAdvance_next]

lemma writeVolumeApply_next (v : Nat) (s : State) :
    (writeVolumeApply v s).next_cd_audio_volume_matrix
      = s.next_cd_audio_volume_matrix := by
  unfold writeVolumeApply
  dsimp only
  split <;> rfl

lemma getAckDelay_ne_zero (c : Command) : getAckDelayForCommand c ≠ 0 := by
  unfold getAckDelayForCommand
  split <;> norm_num

lemma beginCommand_next (c : Command) (s : State) :
    (beginCommand c s).next_cd_audio_volume_matrix = s.next_cd_audio_volume_matrix := by
  unfold beginCommand
  dsimp only
  rw [if_neg (getAckDelay_ne_zero c)]
  rfl

lemma writeRegister_next {offset v : Nat} {s : State} :
    (writeRegister offset v s).next_cd_audio_volume_matrix.m11
      = s.next_cd_audio_volume_matrix.m11 := by
  unfold writeRegister
  split
  · rfl
  · split
    · split
      · rw [beginCommand_next]
      · rfl
    · rfl
    · rfl
    · rfl
    · rfl
  · split
    · rfl
    · rfl
    · rfl
    · rfl
    · rfl
  · split
    · rw [writeRequestRegister_next]
    · rw [writeInterruptFlagRegister_next]
    · rfl
    · rw [writeVolumeApply_next]
    · rfl
  · rfl

/-!  Claim theorems. -/

/-- C1 (amended): in every reachable state the DMA request line equals
`DRQSTS` and a non-empty data FIFO implies `DRQSTS`; every operation
that ends in `UpdateStatusRegister` re-establishes `DRQSTS` = (data FIFO
non-empty). The original claim fails because `DMARead` does not refresh
the status byte after draining the FIFO. -/
theorem C1_theorem :
    (∀ s : State, Reachable s →
      s.dma_request = s.status.DRQSTS ∧ (s.data_fifo ≠ [] → s.status.DRQSTS = true))
    ∧ ∀ t : State, (updateStatusRegister t).status.DRQSTS
        = !(updateStatusRegister t).data_fifo.isEmpty := by
  constructor
  · intro s hs
    have h := inv_reachable hs
    exact ⟨h.1.2.1, h.1.1⟩
  · intro t
    rfl

/-- C1 counterexample: after ReadN brings a sector in, a BFRD load fills
the data FIFO, and a 512-word DMA read drains it, the reachable state
has an empty data FIFO with `DRQSTS` still set — `DRQSTS` does not equal
(data FIFO non-empty) in every reachable state. -/
theorem C1_counterexample :
    Reachable c1State5 ∧ c1State5.data_fifo = [] ∧ c1State5.status.DRQSTS = true :=
  ⟨reach_c1State5, c1State5_data, by decide⟩

/-- C1 witness: the amended theorem evaluated at the reachable state
just after the BFRD load (FIFO holding 2048 bytes) and at the power-on
state. -/
theorem C1_witness :
    (c1State4.dma_request = c1State4.status.DRQSTS ∧ c1State4.status.DRQSTS = true)
    ∧ (updateStatusRegister initState).status.DRQSTS
        = !(updateStatusRegister initState).data_fifo.isEmpty := by
  have h := C1_theorem.1 c1State4 reach_c1State4
  refine ⟨⟨h.1, h.2 ?_⟩, C1_theorem.2 initState⟩
  rw [c1State4_data]
  exact List.ne_nil_of_length_pos (by rw [List.length_replicate]; norm_num)

/-- C2 (amended): in every reachable state `BUSYSTS` implies
`command_state = WaitForExecute`, and every operation ending in
`UpdateStatusRegister` re-establishes `BUSYSTS` = (command_state =
WaitForExecute). The original claim fails because the interrupt-flag
write that advances WaitForIRQClear to WaitForExecute does not refresh
the status byte. -/
theorem C2_theorem :
    (∀ s : State, Reachable s →
      s.status.BUSYSTS = true → s.command_state = CommandState.WaitForExecute)
    ∧ ∀ t : State, (updateStatusRegister t).status.BUSYSTS
        = ((updateStatusRegister t).command_state == CommandState.WaitForExecute) := by
  constructor
  · intro s hs
    exact (inv_reachable hs).1.2.2
  · intro t
    rfl

/-- C2 counterexample: GetID with media acked at stage 0, then a host
interrupt-flag write of 0x1F: the command advances to WaitForExecute but
`BUSYSTS` stays clear in the resulting reachable state. -/
theorem C2_counterexample :
    Reachable c2State4 ∧ c2State4.command_state = CommandState.WaitForExecute
    ∧ c2State4.status.BUSYSTS = false :=
  ⟨reach_c2State4, by decide, by decide⟩

/-- C2 witness: the amended theorem evaluated at the reachable state
right after the GetID command byte is written (BUSYSTS set) and at the
power-on state. -/
theorem C2_witness :
    c2State1.command_state = CommandState.WaitForExecute
    ∧ (updateStatusRegister initState).status.BUSYSTS
        = ((updateStatusRegister initState).command_state == CommandState.WaitForExecute) :=
  ⟨C2_theorem.1 c2State1 reach_c2State1 (by decide), C2_theorem.2 initState⟩

/-- C3 (amended): the XA resampler path applies the CDDA volume-matrix
mapping with `M[1][0]` substituted for `M[0][1]` in the left output (the
right outputs agree), so the two paths coincide exactly when
`M[0][1] = M[1][0]`; each output is the int16-wrapped sum of the two
saturated products. -/
theorem C3_theorem :
    (∀ (M : VolumeMatrix) (l r : Int),
      xaOutPair M l r = cddaOutPair { M with m01 := M.m10 } l r)
    ∧ ∀ (M : VolumeMatrix) (l r : Int), M.m01 = M.m10 →
      xaOutPair M l r = cddaOutPair M l r := by
  constructor
  · intro M l r
    rfl
  · intro M l r h
    unfold xaOutPair cddaOutPair
    rw [h]

/-- C3 counterexample: with matrix entries M[0][1] = 0 and
M[1][0] = 0x80 the two paths map the pair (0, 1000) to different
outputs, so the paths' volume-application functions are not equal. -/
theorem C3_counterexample :
    xaOutPair ⟨0x80, 0x00, 0x80, 0x80⟩ 0 1000
      ≠ cddaOutPair ⟨0x80, 0x00, 0x80, 0x80⟩ 0 1000 := by
  decide

/-- C3 witness: the amended theorem evaluated at a matrix with
M[0][1] = M[1][0] = 0x40 and the pair (5, 7). -/
theorem C3_witness :
    xaOutPair ⟨0x80, 0x40, 0x40, 0x80⟩ 5 7 = cddaOutPair ⟨0x80, 0x40, 0x40, 0x80⟩ 5 7 :=
  C3_theorem.2 ⟨0x80, 0x40, 0x40, 0x80⟩ 5 7 rfl

/-- C4 (amended): a CDDA sector reserves 588 mixer slots and pushes
exactly 588 pairs; an unmuted XA sector reserves the input sample count
`n` from the coding info but pushes 7 samples per 6 ring writes — exactly
7 * ((d * n + 6 - s) / 6) pairs for duplication factor d (2 at half
rate, else 1) and incoming phase counter s in [1,6] — which exceeds the
reservation (about 7n/6). -/
theorem C4_theorem :
    (∀ s : State, s.muted = false →
      ∃ rest : List SpuEvent,
        (processCDDASector s).spu_events = s.spu_events ++ SpuEvent.ensure 588 :: rest
        ∧ rest.countP isSampleEvent = 588 ∧ rest.length = 588)
    ∧ ∀ s : State, s.muted = false → s.adpcm_muted = false →
        1 ≤ s.xa_resample_sixstep → s.xa_resample_sixstep ≤ 6 →
      ∃ rest : List SpuEvent,
        (processXAADPCMSector s).spu_events
          = s.spu_events ++ SpuEvent.ensure (xaReserve s.last_sector_subheader.codinginfo) :: rest
        ∧ rest.countP isSampleEvent
            = 7 * ((xaDup s.last_sector_subheader.codinginfo
                * xaReserve s.last_sector_subheader.codinginfo + 6 - s.xa_resample_sixstep) / 6)
        ∧ rest.length = rest.countP isSampleEvent := by
  constructor
  · intro s hm
    exact processCDDA_events hm
  · intro s hm ha h1 h6
    exact processXA_events hm ha h1 h6

/-- C4 counterexample: a mono 4-bit full-rate XA sector reserves 4032
samples but pushes 4704 mixer samples, so the number of
`AddCDAudioSample` calls does not equal the `n` passed to
`EnsureCDAudioSpace`. -/
theorem C4_counterexample :
    (processXAADPCMSector xaState).spu_events.headD (SpuEvent.ensure 0) = SpuEvent.ensure 4032
    ∧ (processXAADPCMSector xaState).spu_events.countP isSampleEvent = 4704
    ∧ (4704 : Nat) ≠ 4032 := by
  obtain ⟨rest, he, hc, hl⟩ := processXA_events (s := xaState) rfl rfl (by decide) (by decide)
  have hres : xaReserve xaState.last_sector_subheader.codinginfo = 4032 := by decide
  have hcnt : 7 * ((xaDup xaState.last_sector_subheader.codinginfo
      * xaReserve xaState.last_sector_subheader.codinginfo + 6
      - xaState.xa_resample_sixstep) / 6) = 4704 := by decide
  have h0 : xaState.spu_events = [] := rfl
  refine ⟨?_, ?_, by norm_num⟩
  · rw [he, hres, h0]
    rfl
  · rw [he, h0]
    simp only [List.nil_append, List.countP_cons, isSampleEvent, hc, hcnt]
    rfl

/-- C4 witness: the amended theorem evaluated at the media-loaded
power-on state (CDDA part) and at the mono full-rate XA state. -/
theorem C4_witness :
    (processCDDASector sMedia).spu_events.countP isSampleEvent = 588
    ∧ (processXAADPCMSector xaState).spu_events.countP isSampleEvent = 4704 := by
  obtain ⟨r1, he1, hc1, _⟩ := C4_theorem.1 sMedia rfl
  obtain ⟨r2, he2, hc2, _⟩ := C4_theorem.2 xaState rfl rfl (by decide) (by decide)
  constructor
  · rw [he1, show sMedia.spu_events = [] from rfl]
    simp only [List.nil_append, List.countP_cons, isSampleEvent, hc1]
    rfl
  · rw [he2, show xaState.spu_events = [] from rfl]
    simp only [List.nil_append, List.countP_cons, isSampleEvent, hc2]
    rw [show 7 * ((xaDup xaState.last_sector_subheader.codinginfo
      * xaReserve xaState.last_sector_subheader.codinginfo + 6
      - xaState.xa_resample_sixstep) / 6) = 4704 from by decide]
    norm_num

/-- C5 (confirmed): an asserted async interrupt is delivered at that
moment (response FIFO becomes the async FIFO contents, the async FIFO
empties, the code is latched into the flag register, the pending code
clears and the IRQ line fires) exactly when the interrupt-flag register
is zero; otherwise only `pending_async_interrupt` is latched and nothing
else changes; and no reachable state ever records an async delivery
performed while the flag register was non-zero. -/
theorem C5_theorem :
    (∀ (code : Nat) (s : State), s.interrupt_flag_register = 0 →
      (setAsyncInterrupt code s).response_fifo = s.async_response_fifo
      ∧ (setAsyncInterrupt code s).async_response_fifo = []
      ∧ (setAsyncInterrupt code s).interrupt_flag_register = code
      ∧ (setAsyncInterrupt code s).pending_async_interrupt = 0
      ∧ (setAsyncInterrupt code s).irq_count = s.irq_count + 1)
    ∧ (∀ (code : Nat) (s : State), s.interrupt_flag_register ≠ 0 →
      setAsyncInterrupt code s
        = { s with
            pending_async_interrupt := code
            double_async := s.double_async || (s.pending_async_interrupt != 0) })
    ∧ ∀ s : State, Reachable s → s.bad_async_delivery = false := by
  refine ⟨?_, ?_, ?_⟩
  · intro code s h
    unfold setAsyncInterrupt deliverAsyncInterrupt hasPendingInterrupt
    dsimp only
    rw [h]
    norm_num
  · intro code s h
    unfold setAsyncInterrupt hasPendingInterrupt
    dsimp only
    rw [if_pos (by simpa using h)]
  · intro s hs
    exact (inv_reachable hs).2.1

/-- C5 witness: the theorem evaluated at the power-on state (flag clear,
immediate delivery), at a state with flag code 3 outstanding (held
delivery), and the no-bad-delivery invariant at the power-on state. -/
theorem C5_witness :
    ((setAsyncInterrupt 2 initState).interrupt_flag_register = 2
      ∧ (setAsyncInterrupt 2 initState).pending_async_interrupt = 0
      ∧ (setAsyncInterrupt 2 initState).irq_count = initState.irq_count + 1)
    ∧ setAsyncInterrupt 2 sFlag3
        = { sFlag3 with
            pending_async_interrupt := 2
            double_async := sFlag3.double_async || (sFlag3.pending_async_interrupt != 0) }
    ∧ initState.bad_async_delivery = false := by
  obtain ⟨_, _, h3, h4, h5⟩ := C5_theorem.1 2 initState rfl
  exact ⟨⟨h3, h4, h5⟩, C5_theorem.2.1 2 sFlag3 (by decide),
    C5_theorem.2.2 initState Relation.ReflTransGen.refl⟩


/-- C6 (confirmed): GetID at stage 0 with no media replies INT5 with
exactly [0x11, 0x80] and ends the command; with media it acks with the
secondary status and parks in WaitForIRQClear with 18000 ticks
programmed for stage 1; stage 1 replies INT2 with exactly the eight
NTSC-U identification bytes and ends the command; the stage-0 ack delay
is the default 4000 ticks. -/
theorem C6_theorem :
    (∀ s : State, s.command = Command.GetID → s.command_stage = 0 → s.media = none →
      s.response_fifo = [] →
      (executeCommand s).response_fifo = [0x11, 0x80]
      ∧ (executeCommand s).interrupt_flag_register = 5
      ∧ (executeCommand s).command_state = CommandState.Idle)
    ∧ (∀ (s : State) (m : Media), s.command = Command.GetID → s.command_stage = 0 →
      s.media = some m → s.response_fifo = [] →
      (executeCommand s).response_fifo = [secondaryBits s.secondary_status]
      ∧ (executeCommand s).interrupt_flag_register = 3
      ∧ (executeCommand s).command_state = CommandState.WaitForIRQClear
      ∧ (executeCommand s).command_remaining_ticks = 18000
      ∧ (executeCommand s).command_stage = 1)
    ∧ (∀ s : State, s.command = Command.GetID → s.command_stage = 1 →
      s.response_fifo = [] →
      (executeCommand s).response_fifo = [0x02, 0x00, 0x20, 0x00, 0x53, 0x43, 0x45, 0x41]
      ∧ (executeCommand s).interrupt_flag_register = 2
      ∧ (executeCommand s).command_state = CommandState.Idle)
    ∧ getAckDelayForCommand Command.GetID = 4000 := by
  refine ⟨?_, ?_, ?_, rfl⟩
  · intro s hcmd hstage hmedia hresp
    refine ⟨?_, ?_, ?_⟩ <;>
      simp only [executeCommand, hcmd, hstage, hmedia, hresp, reduceIte, endCommand,
        setInterrupt, updateStatusRegister, hasPendingInterrupt, List.nil_append] <;> rfl
  · intro s m hcmd hstage hmedia hresp
    refine ⟨?_, ?_, ?_, ?_, ?_⟩ <;>
      simp only [executeCommand, hcmd, hstage, hmedia, hresp, reduceIte, nextCommandStage,
        sendACKAndStat, setInterrupt, updateStatusRegister, hasPendingInterrupt,
        List.nil_append] <;> rfl
  · intro s hcmd hstage hresp
    refine ⟨?_, ?_, ?_⟩ <;>
      simp only [executeCommand, hcmd, hstage, hresp, reduceIte, endCommand, setInterrupt,
        updateStatusRegister, hasPendingInterrupt, List.nil_append] <;> rfl

/-- C6 witness: the theorem evaluated on GetID execution states with no
media, with `mediaA` at stage 0, and at stage 1. -/
theorem C6_witness :
    ((executeCommand getIDNoMedia).response_fifo = [0x11, 0x80]
      ∧ (executeCommand getIDNoMedia).interrupt_flag_register = 5
      ∧ (executeCommand getIDNoMedia).command_state = CommandState.Idle)
    ∧ ((executeCommand getIDMedia).response_fifo = [secondaryBits getIDMedia.secondary_status]
      ∧ (executeCommand getIDMedia).interrupt_flag_register = 3
      ∧ (executeCommand getIDMedia).command_state = CommandState.WaitForIRQClear
      ∧ (executeCommand getIDMedia).command_remaining_ticks = 18000
      ∧ (executeCommand getIDMedia).command_stage = 1)
    ∧ ((executeCommand getIDStage1).response_fifo
        = [0x02, 0x00, 0x20, 0x00, 0x53, 0x43, 0x45, 0x41]
      ∧ (executeCommand getIDStage1).interrupt_flag_register = 2
      ∧ (executeCommand getIDStage1).command_state = CommandState.Idle) :=
  ⟨C6_theorem.1 getIDNoMedia rfl rfl rfl rfl,
   C6_theorem.2.1 getIDMedia mediaA rfl rfl rfl rfl,
   C6_theorem.2.2.1 getIDStage1 rfl rfl rfl⟩

/-- C7 (confirmed): a seek begun with media present schedules exactly
20000 + |new_lba - current_lba| * 100 ticks, where the new LBA comes
from the latched setloc position and the current LBA from the image,
provided both LBAs are within disc range (no 32-bit overflow). -/
theorem C7_theorem (s : State) (m : Media) (hm : s.media = some m)
    (hn : s.setloc_position.toLBA ≤ 450000) (hc : m.pos ≤ 450000) :
    (beginSeeking s).read_or_seek_remaining_ticks
      = ((20000 + 100 * Nat.dist s.setloc_position.toLBA m.pos : Nat) : Int) := by
  unfold beginSeeking
  rw [hm]
  dsimp only
  unfold getTicksForSeek wrap32s
  dsimp only
  have hdiff : (if s.setloc_position.toLBA > m.pos
        then s.setloc_position.toLBA - m.pos else m.pos - s.setloc_position.toLBA)
      = Nat.dist s.setloc_position.toLBA m.pos := by
    unfold Nat.dist
    split <;> omega
  rw [hdiff]
  have hdist : Nat.dist s.setloc_position.toLBA m.pos ≤ 450000 := by
    unfold Nat.dist
    omega
  rw [Nat.mod_eq_of_lt (by omega)]
  rw [if_pos (by omega : 20000 + Nat.dist s.setloc_position.toLBA m.pos * 100 < 2147483648)]
  push_cast
  ring

/-- C7 witness: the theorem evaluated at a setloc target 16 sectors from
the image position: 20000 + 16 * 100 = 21600 ticks. -/
theorem C7_witness :
    (beginSeeking seekState).read_or_seek_remaining_ticks = ((21600 : Nat) : Int) := by
  have h := C7_theorem seekState mediaA rfl (by decide) (by decide)
  rw [h]
  decide

/-- C9 (confirmed): when a sector read completes while an async
interrupt is still undelivered, the controller first discards it — the
pending code is zeroed and the async response FIFO cleared — and only
then processes the new sector, so the double-pending assertion inside
`SetAsyncInterrupt` is not reached. -/
theorem C9_theorem (s : State) (hp : s.pending_async_interrupt ≠ 0) :
    doSectorRead s = doSectorReadCore (cancelAsyncInterrupt s)
    ∧ (cancelAsyncInterrupt s).pending_async_interrupt = 0
    ∧ (cancelAsyncInterrupt s).async_response_fifo = []
    ∧ (doSectorRead s).double_async = s.double_async := by
  have h1 : doSectorRead s = doSectorReadCore (cancelAsyncInterrupt s) := by
    unfold doSectorRead
    rw [if_pos (by simpa using hp)]
  refine ⟨h1, rfl, rfl, ?_⟩
  rw [h1]
  exact doSectorReadCore_double rfl

/-- C9 witness: the theorem evaluated at a reading state with pending
async code 1 and a stale async response byte. -/
theorem C9_witness :
    doSectorRead c9State = doSectorReadCore (cancelAsyncInterrupt c9State)
    ∧ (cancelAsyncInterrupt c9State).pending_async_interrupt = 0
    ∧ (cancelAsyncInterrupt c9State).async_response_fifo = []
    ∧ (doSectorRead c9State).double_async = c9State.double_async :=
  C9_theorem c9State (by decide)

/-- C10 (confirmed): the register-window writes at (offset 1, index 3)
and (offset 2, index 3) both store the byte into the staged matrix entry
[1][0], (offset 2, index 2) stores into [0][0] and (offset 3, index 2)
into [0][1]; no register-window write ever changes the staged entry
[1][1]; and in every reachable state both the staged and the committed
matrices keep 0x80 in entry [1][1]. -/
theorem C10_theorem :
    (∀ (s : State) (v : Nat), s.status.index = 3 →
      (writeRegister 1 v s).next_cd_audio_volume_matrix
        = { s.next_cd_audio_volume_matrix with m10 := v % 256 }
      ∧ (writeRegister 2 v s).next_cd_audio_volume_matrix
        = { s.next_cd_audio_volume_matrix with m10 := v % 256 })
    ∧ (∀ (s : State) (v : Nat), s.status.index = 2 →
      (writeRegister 2 v s).next_cd_audio_volume_matrix
        = { s.next_cd_audio_volume_matrix with m00 := v % 256 }
      ∧ (writeRegister 3 v s).next_cd_audio_volume_matrix
        = { s.next_cd_audio_volume_matrix with m01 := v % 256 })
    ∧ (∀ (offset v : Nat) (s : State),
      (writeRegister offset v s).next_cd_audio_volume_matrix.m11
        = s.next_cd_audio_volume_matrix.m11)
    ∧ ∀ s : State, Reachable s →
      s.next_cd_audio_volume_matrix.m11 = 0x80 ∧ s.cd_audio_volume_matrix.m11 = 0x80 := by
  refine ⟨?_, ?_, ?_, ?_⟩
  · intro s v hidx
    exact ⟨by simp only [writeRegister, hidx], by simp only [writeRegister, hidx]⟩
  · intro s v hidx
    exact ⟨by simp only [writeRegister, hidx], by simp only [writeRegister, hidx]⟩
  · intro offset v s
    rw [writeRegister_next]
  · intro s hs
    exact ⟨(inv_reachable hs).2.2.1, (inv_reachable hs).2.2.2⟩

/-- C10 witness: the theorem evaluated at power-on states with the
relevant indexes latched, and the reachable-state conjunct at
power-on. -/
theorem C10_witness :
    (writeRegister 1 0x55 idx3State).next_cd_audio_volume_matrix
      = { idx3State.next_cd_audio_volume_matrix with m10 := 0x55 % 256 }
    ∧ (writeRegister 3 0x21 idx2State).next_cd_audio_volume_matrix
      = { idx2State.next_cd_audio_volume_matrix with m01 := 0x21 % 256 }
    ∧ (writeRegister 2 0x7F idx3State).next_cd_audio_volume_matrix.m11
      = idx3State.next_cd_audio_volume_matrix.m11
    ∧ initState.next_cd_audio_volume_matrix.m11 = 0x80 :=
  ⟨(C10_theorem.1 idx3State 0x55 rfl).1,
   (C10_theorem.2.1 idx2State 0x21 rfl).2,
   C10_theorem.2.2.1 2 0x7F idx3State,
   (C10_theorem.2.2.2 initState Relation.ReflTransGen.refl).1⟩


/-- C8 (confirmed): GetTD takes the BCD track from the parameter FIFO;
with no media it replies synchronous INT5 with reason 0x80, with a track
beyond the track count INT5 with reason 0x10; track 0 returns the
end-of-disc position and any other valid track its start position, in
both cases replying ACK with exactly [secondary status, BCD minute, BCD
second]; every case ends the command. -/
theorem C8_theorem :
    (∀ (s : State) (tb : Nat) (rest : List Nat), s.command = Command.GetTD →
      s.param_fifo = tb :: rest → s.response_fifo = [] → s.media = none →
      (executeCommand s).response_fifo = [secondaryBits s.secondary_status ||| 1, 0x80]
      ∧ (executeCommand s).interrupt_flag_register = 5
      ∧ (executeCommand s).command_state = CommandState.Idle)
    ∧ (∀ (s : State) (tb : Nat) (rest : List Nat) (m : Media), s.command = Command.GetTD →
      s.param_fifo = tb :: rest → s.response_fifo = [] → s.media = some m →
      bcdToDecimal tb > m.trackCount →
      (executeCommand s).response_fifo = [secondaryBits s.secondary_status ||| 1, 0x10]
      ∧ (executeCommand s).interrupt_flag_register = 5
      ∧ (executeCommand s).command_state = CommandState.Idle)
    ∧ (∀ (s : State) (tb : Nat) (rest : List Nat) (m : Media), s.command = Command.GetTD →
      s.param_fifo = tb :: rest → s.response_fifo = [] → s.media = some m →
      bcdToDecimal tb = 0 →
      (executeCommand s).response_fifo
        = [secondaryBits s.secondary_status,
           decimalToBCD (truncate8 (Position.fromLBA m.lbaCount).minute),
           decimalToBCD (truncate8 (Position.fromLBA m.lbaCount).second)]
      ∧ (executeCommand s).interrupt_flag_register = 3
      ∧ (executeCommand s).command_state = CommandState.Idle)
    ∧ ∀ (s : State) (tb : Nat) (rest : List Nat) (m : Media), s.command = Command.GetTD →
      s.param_fifo = tb :: rest → s.response_fifo = [] → s.media = some m →
      bcdToDecimal tb ≠ 0 → bcdToDecimal tb ≤ m.trackCount →
      (executeCommand s).response_fifo
        = [secondaryBits s.secondary_status,
           decimalToBCD (truncate8 (m.trackStart (bcdToDecimal tb)).minute),
           decimalToBCD (truncate8 (m.trackStart (bcdToDecimal tb)).second)]
      ∧ (executeCommand s).interrupt_flag_register = 3
      ∧ (executeCommand s).command_state = CommandState.Idle := by
  refine ⟨?_, ?_, ?_, ?_⟩
  · intro s tb rest hcmd hp hresp hmedia
    refine ⟨?_, ?_, ?_⟩ <;>
      simp only [executeCommand, hcmd, hp, hresp, hmedia, List.headD_cons, endCommand,
        sendErrorResponse, setInterrupt, updateStatusRegister, hasPendingInterrupt,
        List.nil_append] <;> rfl
  · intro s tb rest m hcmd hp hresp hmedia htr
    simp only [executeCommand, hcmd, hp, hmedia, List.headD_cons]
    rw [if_pos htr]
    refine ⟨?_, ?_, ?_⟩ <;>
      simp only [endCommand, sendErrorResponse, setInterrupt, updateStatusRegister,
        hasPendingInterrupt, hresp, List.nil_append] <;> rfl
  · intro s tb rest m hcmd hp hresp hmedia h0
    simp only [executeCommand, hcmd, hp, hmedia, List.headD_cons, h0]
    rw [if_neg (Nat.not_lt_zero m.trackCount)]
    simp only [if_true]
    refine ⟨?_, ?_, ?_⟩ <;>
      simp only [endCommand, setInterrupt, updateStatusRegister, hasPendingInterrupt,
        hresp, List.nil_append] <;> rfl
  · intro s tb rest m hcmd hp hresp hmedia hne hle
    simp only [executeCommand, hcmd, hp, hmedia, List.headD_cons]
    rw [if_neg (not_lt.mpr hle)]
    rw [if_neg hne]
    refine ⟨?_, ?_, ?_⟩ <;>
      simp only [endCommand, setInterrupt, updateStatusRegister, hasPendingInterrupt,
        hresp, List.nil_append] <;> rfl

/-- C8 witness: the theorem evaluated on GetTD execution states with no
media, a BCD track beyond the single-track disc, track 0, and track
1. -/
theorem C8_witness :
    ((executeCommand getTDNoMedia).response_fifo
        = [secondaryBits getTDNoMedia.secondary_status ||| 1, 0x80]
      ∧ (executeCommand getTDNoMedia).interrupt_flag_register = 5)
    ∧ ((executeCommand getTDBadTrack).response_fifo
        = [secondaryBits getTDBadTrack.secondary_status ||| 1, 0x10]
      ∧ (executeCommand getTDBadTrack).interrupt_flag_register = 5)
    ∧ ((executeCommand getTDTrack0).response_fifo
        = [secondaryBits getTDTrack0.secondary_status,
           decimalToBCD (truncate8 (Position.fromLBA mediaA.lbaCount).minute),
           decimalToBCD (truncate8 (Position.fromLBA mediaA.lbaCount).second)]
      ∧ (executeCommand getTDTrack0).command_state = CommandState.Idle)
    ∧ (executeCommand getTDTrack1).response_fifo
        = [secondaryBits getTDTrack1.secondary_status,
           decimalToBCD (truncate8 (mediaA.trackStart (bcdToDecimal 0x01)).minute),
           decimalToBCD (truncate8 (mediaA.trackStart (bcdToDecimal 0x01)).second)] := by
  obtain ⟨ha1, ha2, _⟩ := C8_theorem.1 getTDNoMedia 0x01 [] rfl rfl rfl rfl
  obtain ⟨hb1, hb2, _⟩ := C8_theorem.2.1 getTDBadTrack 0x02 [] mediaA rfl rfl rfl rfl (by decide)
  obtain ⟨hc1, _, hc3⟩ := C8_theorem.2.2.1 getTDTrack0 0x00 [] mediaA rfl rfl rfl rfl (by decide)
  obtain ⟨hd1, _, _⟩ :=
    C8_theorem.2.2.2 getTDTrack1 0x01 [] mediaA rfl rfl rfl rfl (by decide) (by decide)
  exact ⟨⟨ha1, ha2⟩, ⟨hb1, hb2⟩, ⟨hc1, hc3⟩, hd1⟩

end CDROM
